import Mathlib

-- Shallow embedding of the kindred lexical-analysis front end: the table-driven
-- DFA engine (Automata, DfaRunner) and its textual-specification parser from
-- src/lexer/automaton.rs, and the hybrid tokenizer (Lexer) with longest-match
-- scanning, string-literal scanning and diagnostic accumulation from
-- src/lexer/lexer_ana.rs.  Rust strings are modelled at the character-list
-- level; machine-word indices are Nat (no overflow is reachable: all indices
-- are bounded by the source length).

/-- Number of bytes of the UTF-8 encoding of a character; used to model Rust
`str::len`, which counts bytes. -/
def charUtf8Size (c : Char) : Nat :=
  if c.toNat < 128 then 1 else if c.toNat < 2048 then 2
  else if c.toNat < 65536 then 3 else 4

/-- Byte length of a string given as its character list (models `str::len`). -/
def byteLen (l : List Char) : Nat := (l.map charUtf8Size).sum

/-- Whitespace removal from both ends of a character list (models `str::trim`;
the sources only ever trim ASCII whitespace). -/
def trimChars (l : List Char) : List Char :=
  ((l.dropWhile Char.isWhitespace).reverse.dropWhile Char.isWhitespace).reverse

/-- Split a character list at every character satisfying `p`, keeping empty
pieces (models `str::split`, which yields one piece even for the empty input). -/
def splitChars (p : Char → Bool) : List Char → List (List Char)
  | [] => [[]]
  | c :: rest =>
    let r := splitChars p rest
    if p c then [] :: r else (c :: r.headD []) :: r.tail

/-- Outcome of feeding one symbol to a runner (src/lexer/automaton.rs,
`TransitionResult`). -/
inductive TransitionResult where
  | Accepted
  | Continue
  | Reject
deriving DecidableEq, Repr

/-- Construction-time errors of the automaton parser (src/lexer/automaton.rs,
`DfaError`). -/
inductive DfaError where
  | InvalidInitialState (s : String)
  | InvalidState (s : String)
  | InvalidSymbol (c : Char)
  | DuplicateTransition (s : String) (c : Char)
  | InvalidFormat (msg : String)
deriving DecidableEq, Repr

/-- Immutable DFA definition (src/lexer/automaton.rs, `Automata`).  The Rust
`HashMap<(String, char), String>` transition table is modelled as an
association list; `from_lines` rejects duplicate keys, so keyed lookup agrees
with the hash map. -/
structure Automata where
  alphabet : List Char
  states : List String
  initial_state : String
  final_states : List String
  transitions : List ((String × Char) × String)
deriving DecidableEq, Repr

/-- Association-list lookup for the transition table (models `HashMap::get`). -/
def lookup_transition : List ((String × Char) × String) → String × Char → Option String
  | [], _ => none
  | ((s, c), d) :: rest, k => if s = k.1 ∧ c = k.2 then some d else lookup_transition rest k

/-- Transition function accessor (src/lexer/automaton.rs, `Automata::transition`). -/
def Automata.transition (a : Automata) (state : String) (symbol : Char) : Option String :=
  lookup_transition a.transitions (state, symbol)

/-- Final-state test (src/lexer/automaton.rs, `Automata::is_final_state`). -/
def Automata.is_final_state (a : Automata) (state : String) : Bool :=
  a.final_states.contains state

/-- Runner cursor: the mutable current state of one simulation
(src/lexer/automaton.rs, `DfaRunner`; the reference to the shared `Automata`
is passed explicitly). -/
structure DfaRunner where
  current_state : String
deriving DecidableEq, Repr

/-- One step of the runner (src/lexer/automaton.rs, `DfaRunner::transition`):
follow the declared transition if any, classifying the destination as final
(`Accepted`) or not (`Continue`); with no declared transition return `Reject`
and leave the runner unchanged. -/
def DfaRunner.transition (a : Automata) (r : DfaRunner) (character : Char) :
    TransitionResult × DfaRunner :=
  match a.transition r.current_state character with
  | some next_state =>
    ((if a.is_final_state next_state then TransitionResult.Accepted
      else TransitionResult.Continue), ⟨next_state⟩)
  | none => (TransitionResult.Reject, r)

/-- Reset of the runner to the initial state (src/lexer/automaton.rs,
`DfaRunner::reset`). -/
def DfaRunner.reset (a : Automata) : DfaRunner := ⟨a.initial_state⟩

/-- Digits 0-9 (the `'0'..='9'` range of the source). -/
def digit_chars : List Char :=
  ['0', '1', '2', '3', '4', '5', '6', '7', '8', '9']

/-- Letters a-z (the `'a'..='z'` range of the source). -/
def lower_chars : List Char :=
  ['a', 'b', 'c', 'd', 'e', 'f', 'g', 'h', 'i', 'j', 'k', 'l', 'm',
   'n', 'o', 'p', 'q', 'r', 's', 't', 'u', 'v', 'w', 'x', 'y', 'z']

/-- Letters A-Z (the `'A'..='Z'` range of the source). -/
def upper_chars : List Char :=
  ['A', 'B', 'C', 'D', 'E', 'F', 'G', 'H', 'I', 'J', 'K', 'L', 'M',
   'N', 'O', 'P', 'Q', 'R', 'S', 'T', 'U', 'V', 'W', 'X', 'Y', 'Z']

/-- Expansion of one alphabet entry (one arm of the `match` in
`Automata::parse_alphabet`): `$` is the digits, `%` the letters, `&` digits
plus letters, a single-byte entry is itself, anything else is a format
error. -/
def expand_symbol (symbol : List Char) : Except DfaError (List Char) :=
  if symbol = ['$'] then Except.ok digit_chars
  else if symbol = ['%'] then Except.ok (lower_chars ++ upper_chars)
  else if symbol = ['&'] then Except.ok (digit_chars ++ lower_chars ++ upper_chars)
  else if byteLen symbol = 1 then Except.ok [symbol.headD '\x00']
  else Except.error (DfaError.InvalidFormat
    ("The symbol '" ++ String.mk symbol ++ "' must be a valid character"))

/-- Sequential expansion of all entries into one accumulated character list
(the `for` loop of `Automata::parse_alphabet`); the first bad entry aborts. -/
def expand_symbols : List (List Char) → Except DfaError (List Char)
  | [] => Except.ok []
  | s :: rest =>
    match expand_symbol s with
    | Except.error e => Except.error e
    | Except.ok cs => (expand_symbols rest).map (fun l => cs ++ l)

/-- Ascending character sort (models `Vec::sort_unstable`; stability is
irrelevant on a decidable linear order). -/
def sort_chars (l : List Char) : List Char := List.insertionSort (· ≤ ·) l

/-- Consecutive-duplicate removal (models `Vec::dedup`). -/
def rust_dedup : List Char → List Char
  | [] => []
  | [a] => [a]
  | a :: b :: rest => if a = b then rust_dedup (b :: rest) else a :: rust_dedup (b :: rest)

/-- Sort then remove consecutive duplicates, as done at the end of
`Automata::parse_alphabet`. -/
def sort_dedup (l : List Char) : List Char := rust_dedup (sort_chars l)

/-- Entries of the alphabet line: split on commas, trim, drop empties
(the iterator chain at the top of `Automata::parse_alphabet`). -/
def alphabet_entries (line : String) : List (List Char) :=
  ((splitChars (fun c => c == ',') line.data).map trimChars).filter (fun l => l ≠ [])

/-- Alphabet-line parser (src/lexer/automaton.rs, `Automata::parse_alphabet`). -/
def Automata.parse_alphabet (line : String) : Except DfaError (List Char) :=
  (expand_symbols (alphabet_entries line)).map sort_dedup

/-- Comma-separated names, trimmed, empties dropped: used for the state line
and the final-state line of `Automata::from_lines`. -/
def comma_names (line : String) : List String :=
  (((splitChars (fun c => c == ',') line.data).map trimChars).map
    (fun l => String.mk l)).filter (fun s => s ≠ "")

/-- First comma-separated entry of the initial-state line, trimmed
(`lines[2].split(',').next()` in `Automata::from_lines`). -/
def initial_name (line : String) : String :=
  String.mk (trimChars ((splitChars (fun c => c == ',') line.data).headD []))

/-- Transition-line parser loop (src/lexer/automaton.rs,
`Automata::parse_transitions`): skip blank lines, split each line on `=` and
`,` into exactly three trimmed fields, validate states and symbol, reject a
re-declared (origin, symbol) key, and accumulate. -/
def Automata.parse_transitions_go (states : List String) (alphabet : List Char) :
    List String → List ((String × Char) × String) →
    Except DfaError (List ((String × Char) × String))
  | [], acc => Except.ok acc
  | line :: rest, acc =>
    let l := trimChars line.data
    if l = [] then Automata.parse_transitions_go states alphabet rest acc
    else
      let parts := (splitChars (fun c => c == '=' || c == ',') l).map
        (fun p => String.mk (trimChars p))
      if parts.length = 3 then
        let origin_state := parts.getD 0 ""
        let symbol_str := parts.getD 1 ""
        let destination_state := parts.getD 2 ""
        if origin_state ∉ states then Except.error (DfaError.InvalidState origin_state)
        else if destination_state ∉ states then
          Except.error (DfaError.InvalidState destination_state)
        else if byteLen symbol_str.data ≠ 1 then
          Except.error (DfaError.InvalidFormat
            ("Symbol '" ++ symbol_str ++ "' must be only one character"))
        else
          let symbol := symbol_str.data.headD '\x00'
          if symbol ∉ alphabet then Except.error (DfaError.InvalidSymbol symbol)
          else if (lookup_transition acc (origin_state, symbol)).isSome then
            Except.error (DfaError.DuplicateTransition origin_state symbol)
          else Automata.parse_transitions_go states alphabet rest
            (acc ++ [((origin_state, symbol), destination_state)])
      else Except.error (DfaError.InvalidFormat ("Invalid line: '" ++ String.mk l ++ "'"))

/-- Entry point of the transition parser, starting from an empty table. -/
def Automata.parse_transitions (lines : List String) (states : List String)
    (alphabet : List Char) : Except DfaError (List ((String × Char) × String)) :=
  Automata.parse_transitions_go states alphabet lines []

/-- Whole-specification parser (src/lexer/automaton.rs, `Automata::from_lines`):
line 0 alphabet, line 1 states, line 2 initial state, line 3 final states,
remaining lines transitions; any validation failure aborts with an error. -/
def Automata.from_lines (lines : List String) : Except DfaError Automata :=
  if lines.length < 4 then
    Except.error (DfaError.InvalidFormat "The format needs to be more than 4 lines")
  else
    match Automata.parse_alphabet (lines.getD 0 "") with
    | Except.error e => Except.error e
    | Except.ok alphabet =>
      let states := comma_names (lines.getD 1 "")
      if states = [] then Except.error (DfaError.InvalidFormat "No states defined")
      else
        let initial_state := initial_name (lines.getD 2 "")
        if initial_state ∉ states then
          Except.error (DfaError.InvalidInitialState initial_state)
        else
          let final_states := comma_names (lines.getD 3 "")
          match final_states.find? (fun s => !(states.contains s)) with
          | some bad => Except.error (DfaError.InvalidState bad)
          | none =>
            (Automata.parse_transitions (lines.drop 4) states alphabet).map
              (fun transitions =>
                ⟨alphabet, states, initial_state, final_states, transitions⟩)

/-- Source span of a token or diagnostic (src/lexer/lexer_ana.rs, `Span`);
`end` is a reserved word in Lean, hence `end_`. -/
structure Span where
  start : Nat
  end_ : Nat
  line : Nat
  column : Nat
deriving DecidableEq, Repr

/-- Constructor mirroring `Span::new`. -/
def Span.new (start end_ line column : Nat) : Span := ⟨start, end_, line, column⟩

/-- Categories of run-time lexical diagnostics (src/lexer/lexer_ana.rs,
`ErrorType`). -/
inductive ErrorType where
  | UnexpectedCharacter
  | UnterminatedString
  | InvalidNumber
  | InvalidEscape
  | Unknown
deriving DecidableEq, Repr

/-- One accumulated lexical diagnostic (src/lexer/lexer_ana.rs, `LexerError`). -/
structure LexerError where
  message : String
  span : Span
  error_type : ErrorType
deriving DecidableEq, Repr

/-- Constructor mirroring `LexerError::new`. -/
def LexerError.new (message : String) (span : Span) (error_type : ErrorType) : LexerError :=
  ⟨message, span, error_type⟩

/-- Token categories (src/lexer/lexer_ana.rs, `TokenType`). -/
inductive TokenType where
  | KeywordLet
  | KeywordIf
  | KeywordElse
  | KeywordFor
  | KeywordWhile
  | KeywordReturn
  | KeywordFn
  | Identifier
  | Integer
  | Float
  | StringLiteral
  | OperatorPlus
  | OperatorMinus
  | OperatorMultiply
  | OperatorDivide
  | OperatorAssign
  | OperatorEqual
  | OperatorNotEqual
  | OperatorLess
  | OperatorGreater
  | OperatorLessEq
  | OperatorGreaterEq
  | ParenthesisLeft
  | ParenthesisRight
  | BraceLeft
  | BraceRight
  | BracketLeft
  | BracketRight
  | Semicolon
  | Comma
  | Dot
  | Or
  | Not
  | And
  | EndOfFile
  | Unknown
  | Programa_
  | Define_
  | Maquinas_
  | Concentradores_
  | Coaxial_
  | Modulo_
  | Inicio_
  | Fin_
  | Coloca_
  | ColocaCoaxial_
  | ColocaCoaxialConcentrador_
  | UneMaquinaPuerto_
  | AsignaPuerto_
  | MaquinaCoaxial_
  | AsignaMaquinaCoaxial_
  | Escribe_
  | Si_
  | Sino_
  | Arriba_
  | Abajo_
  | Izquierda_
  | Derecha_
  | Puertos_
  | Disponibles_
  | Presente_
  | Longitud_
  | Completo_
  | Num_
  | Maquina_
  | Pos_
deriving DecidableEq, Repr

/-- One produced token (src/lexer/lexer_ana.rs, `Token`). -/
structure Token where
  type_ : TokenType
  lexeme : String
  span : Span
deriving DecidableEq, Repr

/-- Constructor mirroring `Token::new`. -/
def Token.new (type_ : TokenType) (lexeme : String) (span : Span) : Token :=
  ⟨type_, lexeme, span⟩

/-- End-of-file token (src/lexer/lexer_ana.rs, `Token::eof`). -/
def Token.eof (position line column : Nat) : Token :=
  ⟨TokenType.EndOfFile, "", Span.new position position line column⟩

/-- Error token: kind `Unknown`, carrying a message as its lexeme
(src/lexer/lexer_ana.rs, `Token::error`). -/
def Token.error (lexeme : String) (span : Span) : Token :=
  ⟨TokenType.Unknown, lexeme, span⟩

/-- Keyword lookup table built by `Lexer::new` (an association list models the
`HashMap<String, TokenType>`; all keys are distinct, so ordered lookup agrees
with the hash map). -/
def lexer_keywords : List (String × TokenType) :=
  [("let", TokenType.KeywordLet),
   ("if", TokenType.KeywordIf),
   ("else", TokenType.KeywordElse),
   ("for", TokenType.KeywordFor),
   ("while", TokenType.KeywordWhile),
   ("return", TokenType.KeywordReturn),
   ("fn", TokenType.KeywordFn),
   ("define", TokenType.Define_),
   ("programa", TokenType.Programa_),
   ("inicio", TokenType.Inicio_),
   ("fin", TokenType.Fin_),
   ("modulo", TokenType.Modulo_),
   ("maquinas", TokenType.Maquinas_),
   ("concentradores", TokenType.Concentradores_),
   ("coaxial", TokenType.Coaxial_),
   ("coloca", TokenType.Coloca_),
   ("colocaCoaxial", TokenType.ColocaCoaxial_),
   ("colocaCoaxialConcentrador", TokenType.ColocaCoaxialConcentrador_),
   ("uneMaquinaPuerto", TokenType.UneMaquinaPuerto_),
   ("asignaPuerto", TokenType.AsignaPuerto_),
   ("maquinaCoaxial", TokenType.MaquinaCoaxial_),
   ("asignaMaquinaCoaxial", TokenType.AsignaMaquinaCoaxial_),
   ("escribe", TokenType.Escribe_),
   ("si", TokenType.Si_),
   ("sino", TokenType.Sino_),
   ("arriba", TokenType.Arriba_),
   ("abajo", TokenType.Abajo_),
   ("izquierda", TokenType.Izquierda_),
   ("derecha", TokenType.Derecha_),
   ("puertos", TokenType.Puertos_),
   ("disponibles", TokenType.Disponibles_),
   ("presente", TokenType.Presente_),
   ("longitud", TokenType.Longitud_),
   ("completo", TokenType.Completo_),
   ("num", TokenType.Num_),
   ("maquina", TokenType.Maquina_),
   ("pos", TokenType.Pos_)]

/-- Association-list lookup for the keyword table (models `HashMap::get`). -/
def lookup_keyword : List (String × TokenType) → String → Option TokenType
  | [], _ => none
  | (k, v) :: rest, s => if k = s then some v else lookup_keyword rest s

/-- Tokenizer state (src/lexer/lexer_ana.rs, `Lexer`).  The three automaton
definitions are loaded from external `.dfa` resource files absent from the
sources, so they are carried as fields fixed at construction, exactly as in
the Rust struct. -/
structure Lexer where
  source : List Char
  current_index : Nat
  line : Nat
  column : Nat
  peeked_token : Option Token
  identifier_dfa : Automata
  integer_dfa : Automata
  float_dfa : Automata
  keywords : List (String × TokenType)
  errors : List LexerError
deriving Repr

/-- Constructor mirroring `Lexer::new`; the automata stand for the three
parsed `.dfa` resource files. -/
def Lexer.new (source_code : String) (identifier_dfa integer_dfa float_dfa : Automata) :
    Lexer :=
  ⟨source_code.data, 0, 1, 1, none, identifier_dfa, integer_dfa, float_dfa,
    lexer_keywords, []⟩

/-- End-of-input test (src/lexer/lexer_ana.rs, `Lexer::is_at_end`). -/
def Lexer.is_at_end (lx : Lexer) : Bool := lx.source.length ≤ lx.current_index

/-- Current character, or the null character at end of input
(src/lexer/lexer_ana.rs, `Lexer::peek_char`). -/
def Lexer.peek_char (lx : Lexer) : Char :=
  if lx.is_at_end then '\x00' else lx.source.getD lx.current_index '\x00'

/-- Consume one character: return it and step the byte cursor and column
(src/lexer/lexer_ana.rs, `Lexer::advance`; callers only invoke it when not at
the end, where the Rust indexing is in bounds). -/
def Lexer.advance (lx : Lexer) : Char × Lexer :=
  (lx.source.getD lx.current_index '\x00',
    { lx with current_index := lx.current_index + 1, column := lx.column + 1 })

/-- Token assembly at the current cursor (src/lexer/lexer_ana.rs,
`Lexer::make_token`). -/
def Lexer.make_token (lx : Lexer) (type_ : TokenType) (lexeme : String)
    (start_index start_line start_column : Nat) : Token :=
  Token.new type_ lexeme (Span.new start_index lx.current_index start_line start_column)

/-- Diagnostic recording (src/lexer/lexer_ana.rs, `Lexer::report_error`):
append one `LexerError` and hand back the corresponding `Unknown` token whose
lexeme is the message. -/
def Lexer.report_error (lx : Lexer) (message : String)
    (start_index start_line start_column : Nat) (error_type : ErrorType) :
    Token × Lexer :=
  let span := Span.new start_index lx.current_index start_line start_column
  (Token.error message span,
    { lx with errors := lx.errors ++ [LexerError.new message span error_type] })

/-- Line-comment loop (the inner `while` of
`Lexer::skip_whitespace_and_comments`): consume up to, excluding, the next
newline or the end of input.  The fuel argument bounds the iteration count;
every iteration consumes one character, so any fuel of at least the remaining
length makes the function agree with the unbounded Rust loop. -/
def Lexer.skip_comment_go : Nat → Lexer → Lexer
  | 0, lx => lx
  | g + 1, lx =>
    if ¬lx.is_at_end ∧ lx.peek_char ≠ '\n' then Lexer.skip_comment_go g (lx.advance).2
    else lx

/-- Whitespace-and-comment loop (src/lexer/lexer_ana.rs,
`Lexer::skip_whitespace_and_comments`): spaces, tabs and carriage returns
advance the column; a newline bumps the line and resets the column; `//`
consumes a line comment; anything else stops.  Every iteration consumes at
least one character, so fuel `remaining + 1` makes the function agree with the
unbounded Rust loop. -/
def Lexer.skip_ws_go : Nat → Lexer → Lexer
  | 0, lx => lx
  | g + 1, lx =>
    let c := lx.peek_char
    if c = ' ' ∨ c = '\t' ∨ c = '\r' then Lexer.skip_ws_go g (lx.advance).2
    else if c = '\n' then
      Lexer.skip_ws_go g (({ lx with line := lx.line + 1, column := 0 }).advance).2
    else if c = '/' then
      if lx.current_index + 1 < lx.source.length ∧
          lx.source.getD (lx.current_index + 1) '\x00' = '/' then
        Lexer.skip_ws_go g (Lexer.skip_comment_go (lx.source.length - lx.current_index) lx)
      else lx
    else lx

/-- Entry point of the whitespace skipper with sufficient fuel. -/
def Lexer.skip_whitespace_and_comments (lx : Lexer) : Lexer :=
  Lexer.skip_ws_go (lx.source.length - lx.current_index + 1) lx

/-- Longest-match trial loop shared by the three `try_match_*` functions
(src/lexer/lexer_ana.rs lines 760-774, 808-822, 849-863): feed the current
character to the runner; `Reject` stops without consuming, `Accepted` consumes
and records the new cursor offset, `Continue` consumes only.  Fuel equal to
the remaining length makes the function agree with the unbounded Rust loop
(when the fuel runs out the cursor is at the end of input, where the Rust loop
stops with the same state). -/
def Lexer.dfa_scan (dfa : Automata) :
    Nat → Lexer → DfaRunner → Option Nat → Lexer × Option Nat
  | 0, lx, _, last_accept => (lx, last_accept)
  | g + 1, lx, r, last_accept =>
    if lx.is_at_end then (lx, last_accept)
    else
      match DfaRunner.transition dfa r lx.peek_char with
      | (TransitionResult.Reject, _) => (lx, last_accept)
      | (TransitionResult.Accepted, r') =>
        let lx' := (lx.advance).2
        Lexer.dfa_scan dfa g lx' r' (some lx'.current_index)
      | (TransitionResult.Continue, r') =>
        Lexer.dfa_scan dfa g (lx.advance).2 r' last_accept

/-- Identifier trial match (src/lexer/lexer_ana.rs,
`Lexer::try_match_identifier`): on success the lexeme from `start_index` to
the last accepted offset is looked up in the keyword table; on failure only
the byte cursor is restored to the saved index. -/
def Lexer.try_match_identifier (lx : Lexer)
    (start_index start_line start_column : Nat) : Option Token × Lexer :=
  let save_index := lx.current_index
  let res := Lexer.dfa_scan lx.identifier_dfa (lx.source.length - lx.current_index) lx
    ⟨lx.identifier_dfa.initial_state⟩ none
  match res.2 with
  | some end_index =>
    let lexeme := String.mk ((res.1.source.drop start_index).take (end_index - start_index))
    let token_type := (lookup_keyword lx.keywords lexeme).getD TokenType.Identifier
    (some (Token.new token_type lexeme
      (Span.new start_index end_index start_line start_column)), res.1)
  | none => (none, { res.1 with current_index := save_index })

/-- Integer trial match (src/lexer/lexer_ana.rs, `Lexer::try_match_integer`). -/
def Lexer.try_match_integer (lx : Lexer)
    (start_index start_line start_column : Nat) : Option Token × Lexer :=
  let save_index := lx.current_index
  let res := Lexer.dfa_scan lx.integer_dfa (lx.source.length - lx.current_index) lx
    ⟨lx.integer_dfa.initial_state⟩ none
  match res.2 with
  | some end_index =>
    (some (Token.new TokenType.Integer
      (String.mk ((res.1.source.drop start_index).take (end_index - start_index)))
      (Span.new start_index end_index start_line start_column)), res.1)
  | none => (none, { res.1 with current_index := save_index })

/-- Float trial match (src/lexer/lexer_ana.rs, `Lexer::try_match_float`). -/
def Lexer.try_match_float (lx : Lexer)
    (start_index start_line start_column : Nat) : Option Token × Lexer :=
  let save_index := lx.current_index
  let res := Lexer.dfa_scan lx.float_dfa (lx.source.length - lx.current_index) lx
    ⟨lx.float_dfa.initial_state⟩ none
  match res.2 with
  | some end_index =>
    (some (Token.new TokenType.Float
      (String.mk ((res.1.source.drop start_index).take (end_index - start_index)))
      (Span.new start_index end_index start_line start_column)), res.1)
  | none => (none, { res.1 with current_index := save_index })

/-- Escape table of `Lexer::scan_string` (the six mapped arms of the Rust
`match` on the character following a backslash); `none` stands for the default
arm, which records an invalid-escape diagnostic. -/
def escape_map (c : Char) : Option Char :=
  if c = 'n' then some '\n'
  else if c = 't' then some '\t'
  else if c = 'r' then some '\r'
  else if c = '\\' then some '\\'
  else if c = '"' then some '"'
  else if c = '0' then some '\x00'
  else none

/-- String-literal loop (the `while` of src/lexer/lexer_ana.rs,
`Lexer::scan_string`, plus its epilogue).  `value` is the accumulated
unescaped text.  A backslash consumes the escape character, mapping the six
recognized escapes to their literal characters and recording an
invalid-escape diagnostic (while still appending the character) for any
other; a bare newline or the end of input aborts with an unterminated-string
diagnostic; a closing quote is consumed and yields the string token.  Every
iteration consumes at least one character, so fuel `remaining + 1` makes the
function agree with the unbounded Rust loop; at fuel 0 the Rust epilogue is
mirrored. -/
def Lexer.scan_string_go (start_index start_line start_column : Nat) :
    Nat → Lexer → List Char → Token × Lexer
  | 0, lx, value =>
    if lx.is_at_end then
      lx.report_error "Unterminated string (end of file)" start_index start_line
        start_column ErrorType.UnterminatedString
    else
      let lx' := (lx.advance).2
      (Token.new TokenType.StringLiteral (String.mk value)
        (Span.new start_index lx'.current_index start_line start_column), lx')
  | g + 1, lx, value =>
    if ¬lx.is_at_end ∧ lx.peek_char ≠ '"' then
      if lx.peek_char = '\\' then
        let lx₁ := (lx.advance).2
        if lx₁.is_at_end then
          lx₁.report_error "Unterminated string" start_index start_line start_column
            ErrorType.UnterminatedString
        else
          let c := lx₁.peek_char
          match escape_map c with
          | some m =>
            Lexer.scan_string_go start_index start_line start_column g (lx₁.advance).2
              (value ++ [m])
          | none =>
            let err := LexerError.new ("Invalid escape sequence '\\" ++ String.mk [c] ++ "'")
              (Span.new (lx₁.current_index - 1) (lx₁.current_index + 1) lx₁.line
                (lx₁.column - 1))
              ErrorType.InvalidEscape
            Lexer.scan_string_go start_index start_line start_column g
              (({ lx₁ with errors := lx₁.errors ++ [err] }).advance).2 (value ++ [c])
      else if lx.peek_char = '\n' then
        lx.report_error "Unterminated string before newline" start_index start_line
          start_column ErrorType.UnterminatedString
      else
        let (c, lx') := lx.advance
        Lexer.scan_string_go start_index start_line start_column g lx' (value ++ [c])
    else if lx.is_at_end then
      lx.report_error "Unterminated string (end of file)" start_index start_line
        start_column ErrorType.UnterminatedString
    else
      let lx' := (lx.advance).2
      (Token.new TokenType.StringLiteral (String.mk value)
        (Span.new start_index lx'.current_index start_line start_column), lx')

/-- String-literal scanner (src/lexer/lexer_ana.rs, `Lexer::scan_string`):
consume the opening quote, then run the accumulation loop. -/
def Lexer.scan_string (lx : Lexer) (start_index start_line start_column : Nat) :
    Token × Lexer :=
  let lx₁ := (lx.advance).2
  Lexer.scan_string_go start_index start_line start_column
    (lx₁.source.length - lx₁.current_index + 1) lx₁ []

/-- One-token scanner (src/lexer/lexer_ana.rs, `Lexer::scan_token`): skip
whitespace and comments, emit the end-of-file token at the end of input, and
otherwise dispatch on the current character exactly in the order of the Rust
`match` (fixed lexemes and one- or two-character operators, then string
literals, then digit-initiated numbers via float-then-integer automata, then
identifier-initiated matches, then the unknown-character diagnostic).
`char::is_alphabetic` is modelled by `Char.isAlpha`; they agree on every
ASCII character. -/
def Lexer.scan_token (lx0 : Lexer) : Token × Lexer :=
  let lx := lx0.skip_whitespace_and_comments
  if lx.is_at_end then (Token.eof lx.current_index lx.line lx.column, lx)
  else
    let start_index := lx.current_index
    let start_line := lx.line
    let start_column := lx.column
    let c := lx.peek_char
    if c = '(' then
      let lx₁ := (lx.advance).2
      (lx₁.make_token TokenType.ParenthesisLeft "(" start_index start_line start_column, lx₁)
    else if c = ')' then
      let lx₁ := (lx.advance).2
      (lx₁.make_token TokenType.ParenthesisRight ")" start_index start_line start_column, lx₁)
    else if c = '\x7b' then
      let lx₁ := (lx.advance).2
      (lx₁.make_token TokenType.BraceLeft "\x7b" start_index start_line start_column, lx₁)
    else if c = '\x7d' then
      let lx₁ := (lx.advance).2
      (lx₁.make_token TokenType.BraceRight "\x7d" start_index start_line start_column, lx₁)
    else if c = '[' then
      let lx₁ := (lx.advance).2
      (lx₁.make_token TokenType.BracketLeft "[" start_index start_line start_column, lx₁)
    else if c = ']' then
      let lx₁ := (lx.advance).2
      (lx₁.make_token TokenType.BracketRight "]" start_index start_line start_column, lx₁)
    else if c = '&' then
      let lx₁ := (lx.advance).2
      if ¬lx₁.is_at_end ∧ lx₁.peek_char = '&' then
        let lx₂ := (lx₁.advance).2
        (lx₂.make_token TokenType.And "&&" start_index start_line start_column, lx₂)
      else
        lx₁.report_error "Expected '&&'" start_index start_line start_column
          ErrorType.UnexpectedCharacter
    else if c = ';' then
      let lx₁ := (lx.advance).2
      (lx₁.make_token TokenType.Semicolon ";" start_index start_line start_column, lx₁)
    else if c = ',' then
      let lx₁ := (lx.advance).2
      (lx₁.make_token TokenType.Comma "," start_index start_line start_column, lx₁)
    else if c = '.' then
      let lx₁ := (lx.advance).2
      (lx₁.make_token TokenType.Dot "." start_index start_line start_column, lx₁)
    else if c = '|' then
      let lx₁ := (lx.advance).2
      if ¬lx₁.is_at_end ∧ lx₁.peek_char = '|' then
        let lx₂ := (lx₁.advance).2
        (lx₂.make_token TokenType.Or "||" start_index start_line start_column, lx₂)
      else
        lx₁.report_error "Expected '||'" start_index start_line start_column
          ErrorType.UnexpectedCharacter
    else if c = '+' then
      let lx₁ := (lx.advance).2
      (lx₁.make_token TokenType.OperatorPlus "+" start_index start_line start_column, lx₁)
    else if c = '-' then
      let lx₁ := (lx.advance).2
      (lx₁.make_token TokenType.OperatorMinus "-" start_index start_line start_column, lx₁)
    else if c = '*' then
      let lx₁ := (lx.advance).2
      (lx₁.make_token TokenType.OperatorMultiply "*" start_index start_line start_column, lx₁)
    else if c = '/' then
      let lx₁ := (lx.advance).2
      (lx₁.make_token TokenType.OperatorDivide "/" start_index start_line start_column, lx₁)
    else if c = '=' then
      let lx₁ := (lx.advance).2
      if ¬lx₁.is_at_end ∧ lx₁.peek_char = '=' then
        let lx₂ := (lx₁.advance).2
        (lx₂.make_token TokenType.OperatorEqual "==" start_index start_line start_column, lx₂)
      else
        (lx₁.make_token TokenType.OperatorAssign "=" start_index start_line start_column, lx₁)
    else if c = '!' then
      let lx₁ := (lx.advance).2
      if ¬lx₁.is_at_end ∧ lx₁.peek_char = '=' then
        let lx₂ := (lx₁.advance).2
        (lx₂.make_token TokenType.OperatorNotEqual "!=" start_index start_line start_column,
          lx₂)
      else
        (lx₁.make_token TokenType.Not "!" start_index start_line start_column, lx₁)
    else if c = '<' then
      let lx₁ := (lx.advance).2
      if ¬lx₁.is_at_end ∧ lx₁.peek_char = '=' then
        let lx₂ := (lx₁.advance).2
        (lx₂.make_token TokenType.OperatorLessEq "<=" start_index start_line start_column,
          lx₂)
      else if ¬lx₁.is_at_end ∧ lx₁.peek_char = '>' then
        let lx₂ := (lx₁.advance).2
        (lx₂.make_token TokenType.OperatorNotEqual "<>" start_index start_line start_column,
          lx₂)
      else
        (lx₁.make_token TokenType.OperatorLess "<" start_index start_line start_column, lx₁)
    else if c = '>' then
      let lx₁ := (lx.advance).2
      if ¬lx₁.is_at_end ∧ lx₁.peek_char = '=' then
        let lx₂ := (lx₁.advance).2
        (lx₂.make_token TokenType.OperatorGreaterEq ">=" start_index start_line start_column,
          lx₂)
      else
        (lx₁.make_token TokenType.OperatorGreater ">" start_index start_line start_column,
          lx₁)
    else if c = '"' then
      lx.scan_string start_index start_line start_column
    else if c.isDigit then
      match lx.try_match_float start_index start_line start_column with
      | (some token, lx') => (token, lx')
      | (none, lxF) =>
        match lxF.try_match_integer start_index start_line start_column with
        | (some token, lx') => (token, lx')
        | (none, lxI) =>
          lxI.report_error "Invalid number" start_index start_line start_column
            ErrorType.InvalidNumber
    else if c.isAlpha ∨ c = '_' then
      match lx.try_match_identifier start_index start_line start_column with
      | (some token, lx') => (token, lx')
      | (none, lxI) =>
        lxI.report_error ("Invalid identifier: '" ++ String.mk [c] ++ "'") start_index
          start_line start_column ErrorType.UnexpectedCharacter
    else
      let lx₁ := (lx.advance).2
      lx₁.report_error ("Unknown character: '" ++ String.mk [c] ++ "'") start_index
        start_line start_column ErrorType.UnexpectedCharacter

/-- Lookahead (src/lexer/lexer_ana.rs, `Lexer::peek`): scan and cache a token
if none is buffered, then expose the buffered token. -/
def Lexer.peek (lx : Lexer) : Token × Lexer :=
  match lx.peeked_token with
  | some t => (t, lx)
  | none =>
    let (t, lx') := lx.scan_token
    (t, { lx' with peeked_token := some t })

/-- Consumption (src/lexer/lexer_ana.rs, `Lexer::next_token`): take and clear
the buffered token if present, otherwise scan fresh. -/
def Lexer.next_token (lx : Lexer) : Token × Lexer :=
  match lx.peeked_token with
  | some t => (t, { lx with peeked_token := none })
  | none => lx.scan_token

/-- Digit-run integer automaton: one accepting state reached and kept on any
digit (a concrete instance of the external integer `.dfa` table). -/
def integer_run_dfa : Automata :=
  { alphabet := digit_chars, states := ["q0", "q1"], initial_state := "q0",
    final_states := ["q1"],
    transitions := (digit_chars.map (fun d => (("q0", d), "q1"))) ++
      (digit_chars.map (fun d => (("q1", d), "q1"))) }

/-- Automaton accepting `3` and continuing on `.` into a dead-end non-final
state (it may extend `3` only by `.` followed by nothing). -/
def dead_end_dfa : Automata :=
  { alphabet := ['3', '.'], states := ["q0", "q1", "q2"], initial_state := "q0",
    final_states := ["q1"], transitions := [(("q0", '3'), "q1"), (("q1", '.'), "q2")] }

/-- Automaton that consumes `9` into a non-final state and accepts nothing. -/
def continue_only_dfa : Automata :=
  { alphabet := ['9'], states := ["q0", "q1"], initial_state := "q0",
    final_states := [], transitions := [(("q0", '9'), "q1")] }

/-- Automaton with no transitions at all (every symbol is rejected). -/
def empty_dfa : Automata :=
  { alphabet := [], states := ["q0"], initial_state := "q0",
    final_states := [], transitions := [] }

/-- Tokenizer over `123` whose three automata are the digit-run automaton. -/
def lex_digits : Lexer := Lexer.new "123" integer_run_dfa integer_run_dfa integer_run_dfa

/-- Tokenizer over `3.` backed by the dead-end automaton. -/
def lex_dead_end : Lexer := Lexer.new "3." dead_end_dfa dead_end_dfa dead_end_dfa

/-- Tokenizer over `9` backed by the never-accepting automaton. -/
def lex_continue : Lexer := Lexer.new "9" continue_only_dfa continue_only_dfa
  continue_only_dfa

/-- Tokenizer over `1` whose float and integer automata reject immediately. -/
def lex_invalid_number : Lexer := Lexer.new "1" empty_dfa empty_dfa empty_dfa

/-- Tokenizer over a string literal containing the invalid escape `\q`. -/
def lex_escape : Lexer := Lexer.new "\"a\\qb\"" empty_dfa empty_dfa empty_dfa

/-- Tokenizer over the unknown character `@`. -/
def lex_at_sign : Lexer := Lexer.new "@" empty_dfa empty_dfa empty_dfa

/-- Tokenizer over `&x` (a lone `&`). -/
def lex_lone_amp : Lexer := Lexer.new "&x" empty_dfa empty_dfa empty_dfa

/-- Tokenizer over `|;` (a lone `|`). -/
def lex_lone_pipe : Lexer := Lexer.new "|;" empty_dfa empty_dfa empty_dfa

/-- Tokenizer over the empty input. -/
def lex_empty : Lexer := Lexer.new "" empty_dfa empty_dfa empty_dfa

theorem dfa_scan_fields (dfa : Automata) (g : Nat) :
    ∀ (lx : Lexer) (r : DfaRunner) (la : Option Nat),
      ((Lexer.dfa_scan dfa g lx r la).1.source = lx.source) ∧
      ((Lexer.dfa_scan dfa g lx r la).1.errors = lx.errors) ∧
      ((Lexer.dfa_scan dfa g lx r la).1.line = lx.line) ∧
      ((Lexer.dfa_scan dfa g lx r la).1.peeked_token = lx.peeked_token) ∧
      ((Lexer.dfa_scan dfa g lx r la).1.identifier_dfa = lx.identifier_dfa) ∧
      ((Lexer.dfa_scan dfa g lx r la).1.integer_dfa = lx.integer_dfa) ∧
      ((Lexer.dfa_scan dfa g lx r la).1.float_dfa = lx.float_dfa) ∧
      ((Lexer.dfa_scan dfa g lx r la).1.keywords = lx.keywords) ∧
      (lx.current_index ≤ (Lexer.dfa_scan dfa g lx r la).1.current_index) := by
  induction g with
  | zero => intro lx r la; simp [Lexer.dfa_scan]
  | succ g ih =>
    intro lx r la
    rw [Lexer.dfa_scan]
    by_cases h : lx.is_at_end = true
    · simp [h]
    · simp only [if_neg h]
      rcases hTr : DfaRunner.transition dfa r lx.peek_char with ⟨tr, r'⟩
      cases tr with
      | Reject => simp [hTr]
      | Accepted =>
        simp only [hTr]
        obtain ⟨h1, h2, h3, h4, h5, h6, h7, h8, h9⟩ :=
          ih (lx.advance).2 r' (some ((lx.advance).2.current_index))
        exact ⟨h1, h2, h3, h4, h5, h6, h7, h8, Nat.le_of_succ_le h9⟩
      | Continue =>
        simp only [hTr]
        obtain ⟨h1, h2, h3, h4, h5, h6, h7, h8, h9⟩ := ih (lx.advance).2 r' la
        exact ⟨h1, h2, h3, h4, h5, h6, h7, h8, Nat.le_of_succ_le h9⟩

theorem dfa_scan_accept_le (dfa : Automata) (g : Nat) :
    ∀ (lx : Lexer) (r : DfaRunner) (la : Option Nat) (e : Nat),
      (∀ e0, la = some e0 → e0 ≤ lx.current_index) →
      (Lexer.dfa_scan dfa g lx r la).2 = some e →
      e ≤ (Lexer.dfa_scan dfa g lx r la).1.current_index := by
  induction g with
  | zero =>
    intro lx r la e hla h
    simp only [Lexer.dfa_scan] at h ⊢
    exact hla e h
  | succ g ih =>
    intro lx r la e hla h
    rw [Lexer.dfa_scan] at h ⊢
    by_cases hEnd : lx.is_at_end = true
    · simp only [if_pos hEnd] at h ⊢
      exact hla e h
    · simp only [if_neg hEnd] at h ⊢
      rcases hTr : DfaRunner.transition dfa r lx.peek_char with ⟨tr, r'⟩
      cases tr with
      | Reject =>
        simp only [hTr] at h ⊢
        exact hla e h
      | Accepted =>
        simp only [hTr] at h ⊢
        refine ih (lx.advance).2 r' (some ((lx.advance).2.current_index)) e ?_ h
        intro e0 he0
        cases he0
        exact Nat.le_refl _
      | Continue =>
        simp only [hTr] at h ⊢
        refine ih (lx.advance).2 r' la e ?_ h
        intro e0 he0
        exact Nat.le_succ_of_le (hla e0 he0)

theorem try_match_float_none (lx : Lexer) (si sl sc : Nat) (lx' : Lexer)
    (h : lx.try_match_float si sl sc = (none, lx')) :
    lx'.source = lx.source ∧ lx'.current_index = lx.current_index ∧ lx'.line = lx.line ∧
    lx'.errors = lx.errors ∧ lx'.peeked_token = lx.peeked_token ∧
    lx'.identifier_dfa = lx.identifier_dfa ∧ lx'.integer_dfa = lx.integer_dfa ∧
    lx'.float_dfa = lx.float_dfa ∧ lx'.keywords = lx.keywords := by
  unfold Lexer.try_match_float at h
  obtain ⟨f1, f2, f3, f4, f5, f6, f7, f8, _⟩ := dfa_scan_fields lx.float_dfa
    (lx.source.length - lx.current_index) lx ⟨lx.float_dfa.initial_state⟩ none
  rcases hres : (Lexer.dfa_scan lx.float_dfa (lx.source.length - lx.current_index) lx
      ⟨lx.float_dfa.initial_state⟩ none).2 with _ | e
  · simp only [hres] at h
    injection h with hA hB
    subst hB
    exact ⟨f1, rfl, f3, f2, f4, f5, f6, f7, f8⟩
  · simp only [hres] at h
    exact absurd (congrArg Prod.fst h) (by simp)

theorem try_match_integer_none (lx : Lexer) (si sl sc : Nat) (lx' : Lexer)
    (h : lx.try_match_integer si sl sc = (none, lx')) :
    lx'.source = lx.source ∧ lx'.current_index = lx.current_index ∧ lx'.line = lx.line ∧
    lx'.errors = lx.errors ∧ lx'.peeked_token = lx.peeked_token ∧
    lx'.identifier_dfa = lx.identifier_dfa ∧ lx'.integer_dfa = lx.integer_dfa ∧
    lx'.float_dfa = lx.float_dfa ∧ lx'.keywords = lx.keywords := by
  unfold Lexer.try_match_integer at h
  obtain ⟨f1, f2, f3, f4, f5, f6, f7, f8, _⟩ := dfa_scan_fields lx.integer_dfa
    (lx.source.length - lx.current_index) lx ⟨lx.integer_dfa.initial_state⟩ none
  rcases hres : (Lexer.dfa_scan lx.integer_dfa (lx.source.length - lx.current_index) lx
      ⟨lx.integer_dfa.initial_state⟩ none).2 with _ | e
  · simp only [hres] at h
    injection h with hA hB
    subst hB
    exact ⟨f1, rfl, f3, f2, f4, f5, f6, f7, f8⟩
  · simp only [hres] at h
    exact absurd (congrArg Prod.fst h) (by simp)

theorem try_match_integer_some (lx : Lexer) (si sl sc : Nat) (tok : Token) (lx' : Lexer)
    (h : lx.try_match_integer si sl sc = (some tok, lx')) :
    tok = Token.new TokenType.Integer
      (String.mk ((lx.source.drop si).take (tok.span.end_ - si)))
      (Span.new si tok.span.end_ sl sc) ∧
    tok.span.end_ ≤ lx'.current_index ∧ lx'.source = lx.source ∧ lx'.line = lx.line ∧
    lx'.errors = lx.errors := by
  unfold Lexer.try_match_integer at h
  obtain ⟨f1, f2, f3, f4, f5, f6, f7, f8, _⟩ := dfa_scan_fields lx.integer_dfa
    (lx.source.length - lx.current_index) lx ⟨lx.integer_dfa.initial_state⟩ none
  rcases hres : (Lexer.dfa_scan lx.integer_dfa (lx.source.length - lx.current_index) lx
      ⟨lx.integer_dfa.initial_state⟩ none).2 with _ | e
  · simp only [hres] at h
    exact absurd (congrArg Prod.fst h) (by simp)
  · simp only [hres] at h
    injection h with hA hB
    subst hB
    have hle := dfa_scan_accept_le lx.integer_dfa (lx.source.length - lx.current_index) lx
      ⟨lx.integer_dfa.initial_state⟩ none e (by intro e0 h0; cases h0) hres
    injection hA with hA'
    subst hA'
    refine ⟨?_, ?_, f1, f3, f2⟩
    · simp only [Token.new, Span.new, f1]
    · simpa only [Token.new, Span.new] using hle

theorem try_match_float_some (lx : Lexer) (si sl sc : Nat) (tok : Token) (lx' : Lexer)
    (h : lx.try_match_float si sl sc = (some tok, lx')) :
    tok = Token.new TokenType.Float
      (String.mk ((lx.source.drop si).take (tok.span.end_ - si)))
      (Span.new si tok.span.end_ sl sc) ∧
    tok.span.end_ ≤ lx'.current_index ∧ lx'.source = lx.source ∧ lx'.line = lx.line ∧
    lx'.errors = lx.errors := by
  unfold Lexer.try_match_float at h
  obtain ⟨f1, f2, f3, f4, f5, f6, f7, f8, _⟩ := dfa_scan_fields lx.float_dfa
    (lx.source.length - lx.current_index) lx ⟨lx.float_dfa.initial_state⟩ none
  rcases hres : (Lexer.dfa_scan lx.float_dfa (lx.source.length - lx.current_index) lx
      ⟨lx.float_dfa.initial_state⟩ none).2 with _ | e
  · simp only [hres] at h
    exact absurd (congrArg Prod.fst h) (by simp)
  · simp only [hres] at h
    injection h with hA hB
    subst hB
    have hle := dfa_scan_accept_le lx.float_dfa (lx.source.length - lx.current_index) lx
      ⟨lx.float_dfa.initial_state⟩ none e (by intro e0 h0; cases h0) hres
    injection hA with hA'
    subst hA'
    refine ⟨?_, ?_, f1, f3, f2⟩
    · simp only [Token.new, Span.new, f1]
    · simpa only [Token.new, Span.new] using hle

theorem skip_ws_noop (lx : Lexer) (h1 : lx.peek_char ≠ ' ') (h2 : lx.peek_char ≠ '\t')
    (h3 : lx.peek_char ≠ '\r') (h4 : lx.peek_char ≠ '\n') (h5 : lx.peek_char ≠ '/') :
    lx.skip_whitespace_and_comments = lx := by
  unfold Lexer.skip_whitespace_and_comments
  rw [Lexer.skip_ws_go]
  simp [h1, h2, h3, h4, h5]

theorem digit_not_dispatch (c : Char) (h : c.isDigit = true) :
    c ≠ '(' ∧ c ≠ ')' ∧ c ≠ '\x7b' ∧ c ≠ '\x7d' ∧ c ≠ '[' ∧ c ≠ ']' ∧ c ≠ '&' ∧
    c ≠ ';' ∧ c ≠ ',' ∧ c ≠ '.' ∧ c ≠ '|' ∧ c ≠ '+' ∧ c ≠ '-' ∧ c ≠ '*' ∧ c ≠ '/' ∧
    c ≠ '=' ∧ c ≠ '!' ∧ c ≠ '<' ∧ c ≠ '>' ∧ c ≠ '"' ∧ c ≠ ' ' ∧ c ≠ '\t' ∧ c ≠ '\r' ∧
    c ≠ '\n' := by
  refine ⟨?_, ?_, ?_, ?_, ?_, ?_, ?_, ?_, ?_, ?_, ?_, ?_, ?_, ?_, ?_, ?_, ?_, ?_, ?_,
    ?_, ?_, ?_, ?_, ?_⟩ <;>
    (intro hh; rw [hh] at h; exact absurd h (by decide))

theorem scan_token_invalid_number (lx : Lexer) (lxF lxI : Lexer)
    (hEnd : lx.is_at_end = false)
    (hDigit : (lx.peek_char).isDigit = true)
    (hF : lx.try_match_float lx.current_index lx.line lx.column = (none, lxF))
    (hI : lxF.try_match_integer lx.current_index lx.line lx.column = (none, lxI)) :
    lx.scan_token = lxI.report_error "Invalid number" lx.current_index lx.line lx.column
      ErrorType.InvalidNumber ∧
    (lx.scan_token).2.current_index = lx.current_index ∧
    (lx.scan_token).2.errors = lx.errors ++
      [LexerError.new "Invalid number" (Span.new lx.current_index lx.current_index lx.line
        lx.column) ErrorType.InvalidNumber] := by
  obtain ⟨n1, n2, n3, n4, n5, n6, n7, n8, n9, n10, n11, n12, n13, n14, n15, n16, n17,
    n18, n19, n20, n21, n22, n23, n24⟩ := digit_not_dispatch _ hDigit
  have hskip : lx.skip_whitespace_and_comments = lx := skip_ws_noop lx n21 n22 n23 n24 n15
  obtain ⟨g1, g2, g3, g4, g5, g6, g7, g8, g9⟩ := try_match_float_none lx
    lx.current_index lx.line lx.column lxF hF
  obtain ⟨i1, i2, i3, i4, i5, i6, i7, i8, i9⟩ := try_match_integer_none lxF
    lx.current_index lx.line lx.column lxI hI
  have hmain : lx.scan_token = lxI.report_error "Invalid number" lx.current_index lx.line
      lx.column ErrorType.InvalidNumber := by
    unfold Lexer.scan_token
    rw [hskip]
    simp only [hEnd, Bool.false_eq_true, if_false, if_neg n1, if_neg n2, if_neg n3,
      if_neg n4, if_neg n5, if_neg n6, if_neg n7, if_neg n8, if_neg n9, if_neg n10,
      if_neg n11, if_neg n12, if_neg n13, if_neg n14, if_neg n15, if_neg n16, if_neg n17,
      if_neg n18, if_neg n19, if_neg n20, hDigit, if_true]
    rw [hF]
    dsimp only
    rw [hI]
  refine ⟨hmain, ?_, ?_⟩
  · rw [hmain]
    simp only [Lexer.report_error]
    rw [i2, g2]
  · rw [hmain]
    simp only [Lexer.report_error]
    rw [i4, g4, i2, g2]

theorem peek_char_ne_null_not_at_end (lx : Lexer) (c : Char) (hp : lx.peek_char = c)
    (hc : c ≠ '\x00') : lx.is_at_end = false := by
  by_cases h : lx.is_at_end = true
  · exfalso
    apply hc
    rw [← hp]
    unfold Lexer.peek_char
    rw [if_pos h]
  · simpa using h

theorem scan_token_at_end (lx : Lexer) (h : lx.is_at_end = true) :
    lx.scan_token = (Token.eof lx.current_index lx.line lx.column, lx) := by
  have hp : lx.peek_char = '\x00' := by
    unfold Lexer.peek_char
    rw [if_pos h]
  have hskip : lx.skip_whitespace_and_comments = lx :=
    skip_ws_noop lx (by rw [hp]; decide) (by rw [hp]; decide) (by rw [hp]; decide)
      (by rw [hp]; decide) (by rw [hp]; decide)
  unfold Lexer.scan_token
  rw [hskip, if_pos h]

theorem scan_token_lone_amp (lx : Lexer) (hp : lx.peek_char = '&')
    (h2 : ((lx.advance).2.is_at_end = true) ∨ (lx.advance).2.peek_char ≠ '&') :
    lx.scan_token = ((lx.advance).2).report_error "Expected '&&'" lx.current_index lx.line
      lx.column ErrorType.UnexpectedCharacter ∧
    (lx.scan_token).2.current_index = lx.current_index + 1 ∧
    (lx.scan_token).2.errors = lx.errors ++
      [LexerError.new "Expected '&&'" (Span.new lx.current_index (lx.current_index + 1)
        lx.line lx.column) ErrorType.UnexpectedCharacter] := by
  have hEnd : lx.is_at_end = false := peek_char_ne_null_not_at_end lx '&' hp (by decide)
  have hskip : lx.skip_whitespace_and_comments = lx :=
    skip_ws_noop lx (by rw [hp]; decide) (by rw [hp]; decide) (by rw [hp]; decide)
      (by rw [hp]; decide) (by rw [hp]; decide)
  have hcond : ¬(¬((lx.advance).2.is_at_end = true) ∧ (lx.advance).2.peek_char = '&') := by
    rcases h2 with h | h
    · exact fun hc => hc.1 h
    · exact fun hc => h hc.2
  have hmain : lx.scan_token = ((lx.advance).2).report_error "Expected '&&'"
      lx.current_index lx.line lx.column ErrorType.UnexpectedCharacter := by
    unfold Lexer.scan_token
    rw [hskip]
    simp only [hEnd, Bool.false_eq_true, if_false, hp]
    simp only [if_neg (by decide : ¬('&' : Char) = '('),
      if_neg (by decide : ¬('&' : Char) = ')'), if_neg (by decide : ¬('&' : Char) = '\x7b'),
      if_neg (by decide : ¬('&' : Char) = '\x7d'), if_neg (by decide : ¬('&' : Char) = '['),
      if_neg (by decide : ¬('&' : Char) = ']')]
    simp only [if_true]
    rw [if_neg hcond]
  refine ⟨hmain, ?_, ?_⟩ <;> rw [hmain] <;> simp [Lexer.report_error, Lexer.advance]

theorem scan_token_lone_pipe (lx : Lexer) (hp : lx.peek_char = '|')
    (h2 : ((lx.advance).2.is_at_end = true) ∨ (lx.advance).2.peek_char ≠ '|') :
    lx.scan_token = ((lx.advance).2).report_error "Expected '||'" lx.current_index lx.line
      lx.column ErrorType.UnexpectedCharacter ∧
    (lx.scan_token).2.current_index = lx.current_index + 1 ∧
    (lx.scan_token).2.errors = lx.errors ++
      [LexerError.new "Expected '||'" (Span.new lx.current_index (lx.current_index + 1)
        lx.line lx.column) ErrorType.UnexpectedCharacter] := by
  have hEnd : lx.is_at_end = false := peek_char_ne_null_not_at_end lx '|' hp (by decide)
  have hskip : lx.skip_whitespace_and_comments = lx :=
    skip_ws_noop lx (by rw [hp]; decide) (by rw [hp]; decide) (by rw [hp]; decide)
      (by rw [hp]; decide) (by rw [hp]; decide)
  have hcond : ¬(¬((lx.advance).2.is_at_end = true) ∧ (lx.advance).2.peek_char = '|') := by
    rcases h2 with h | h
    · exact fun hc => hc.1 h
    · exact fun hc => h hc.2
  have hmain : lx.scan_token = ((lx.advance).2).report_error "Expected '||'"
      lx.current_index lx.line lx.column ErrorType.UnexpectedCharacter := by
    unfold Lexer.scan_token
    rw [hskip]
    simp only [hEnd, Bool.false_eq_true, if_false, hp]
    simp only [if_neg (by decide : ¬('|' : Char) = '('),
      if_neg (by decide : ¬('|' : Char) = ')'), if_neg (by decide : ¬('|' : Char) = '\x7b'),
      if_neg (by decide : ¬('|' : Char) = '\x7d'), if_neg (by decide : ¬('|' : Char) = '['),
      if_neg (by decide : ¬('|' : Char) = ']'), if_neg (by decide : ¬('|' : Char) = '&'),
      if_neg (by decide : ¬('|' : Char) = ';'), if_neg (by decide : ¬('|' : Char) = ','),
      if_neg (by decide : ¬('|' : Char) = '.')]
    simp only [if_true]
    rw [if_neg hcond]
  refine ⟨hmain, ?_, ?_⟩ <;> rw [hmain] <;> simp [Lexer.report_error, Lexer.advance]

theorem scan_token_unknown_char (lx : Lexer) (c : Char) (hp : lx.peek_char = c)
    (hEnd : lx.is_at_end = false)
    (hmem : c ∉ ([' ', '\t', '\r', '\n', '(', ')', '\x7b', '\x7d', '[', ']', '&', ';',
      ',', '.', '|', '+', '-', '*', '/', '=', '!', '<', '>', '"'] : List Char))
    (hd : c.isDigit = false) (ha : c.isAlpha = false) (hu : c ≠ '_') :
    lx.scan_token = ((lx.advance).2).report_error ("Unknown character: '" ++
      String.mk [c] ++ "'") lx.current_index lx.line lx.column
      ErrorType.UnexpectedCharacter ∧
    (lx.scan_token).2.current_index = lx.current_index + 1 ∧
    (lx.scan_token).2.errors = lx.errors ++
      [LexerError.new ("Unknown character: '" ++ String.mk [c] ++ "'")
        (Span.new lx.current_index (lx.current_index + 1) lx.line lx.column)
        ErrorType.UnexpectedCharacter] := by
  simp only [List.mem_cons, List.not_mem_nil, or_false, not_or] at hmem
  obtain ⟨m1, m2, m3, m4, m5, m6, m7, m8, m9, m10, m11, m12, m13, m14, m15, m16, m17,
    m18, m19, m20, m21, m22, m23, m24⟩ := hmem
  have hskip : lx.skip_whitespace_and_comments = lx :=
    skip_ws_noop lx (by rw [hp]; exact m1) (by rw [hp]; exact m2) (by rw [hp]; exact m3)
      (by rw [hp]; exact m4) (by rw [hp]; exact m19)
  have hmain : lx.scan_token = ((lx.advance).2).report_error ("Unknown character: '" ++
      String.mk [c] ++ "'") lx.current_index lx.line lx.column
      ErrorType.UnexpectedCharacter := by
    unfold Lexer.scan_token
    rw [hskip]
    simp only [hEnd, Bool.false_eq_true, if_false, hp]
    simp only [if_neg m5, if_neg m6, if_neg m7, if_neg m8, if_neg m9, if_neg m10,
      if_neg m11, if_neg m12, if_neg m13, if_neg m14, if_neg m15, if_neg m16, if_neg m17,
      if_neg m18, if_neg m19, if_neg m20, if_neg m21, if_neg m22, if_neg m23, if_neg m24,
      hd, Bool.false_eq_true, if_false, ha, false_or]
    rw [if_neg hu]
  refine ⟨hmain, ?_, ?_⟩ <;> rw [hmain] <;> simp [Lexer.report_error, Lexer.advance]

theorem scan_string_go_escape_step (si sl sc g : Nat) (lx : Lexer) (value : List Char)
    (c : Char) (hp : lx.peek_char = '\\')
    (hin : lx.current_index + 1 < lx.source.length)
    (hc : lx.source.getD (lx.current_index + 1) '\x00' = c) :
    (∀ m, escape_map c = some m →
      Lexer.scan_string_go si sl sc (g + 1) lx value =
        Lexer.scan_string_go si sl sc g (((lx.advance).2.advance).2) (value ++ [m]) ∧
      (((lx.advance).2.advance).2).errors = lx.errors) ∧
    (escape_map c = none →
      Lexer.scan_string_go si sl sc (g + 1) lx value =
        Lexer.scan_string_go si sl sc g
          ((({ (lx.advance).2 with errors := lx.errors ++
            [LexerError.new ("Invalid escape sequence '\\" ++ String.mk [c] ++ "'")
              (Span.new lx.current_index (lx.current_index + 2) lx.line lx.column)
              ErrorType.InvalidEscape] }).advance).2) (value ++ [c])) := by
  have hEnd : lx.is_at_end = false := peek_char_ne_null_not_at_end lx '\\' hp (by decide)
  have hEnd1 : ((lx.advance).2).is_at_end = false := by
    simp only [Lexer.is_at_end, Lexer.advance, decide_eq_false_iff_not, Nat.not_le]
    exact hin
  have hpk1 : ((lx.advance).2).peek_char = c := by
    unfold Lexer.peek_char
    rw [if_neg (by simp [hEnd1])]
    simpa [Lexer.advance] using hc
  have hloop : (¬lx.is_at_end = true ∧ lx.peek_char ≠ '"') := by
    constructor
    · simp [hEnd]
    · rw [hp]; decide
  constructor
  · intro m hm
    constructor
    · rw [Lexer.scan_string_go]
      rw [if_pos hloop, if_pos hp, if_neg (by simp [hEnd1]), hpk1]
      dsimp only
      rw [hm]
    · simp [Lexer.advance]
  · intro hm
    rw [Lexer.scan_string_go]
    rw [if_pos hloop, if_pos hp, if_neg (by simp [hEnd1]), hpk1]
    dsimp only
    rw [hm]
    rfl

theorem mem_rust_dedup : ∀ (l : List Char) (a : Char), a ∈ rust_dedup l ↔ a ∈ l
  | [], a => by simp [rust_dedup]
  | [b], a => by simp [rust_dedup]
  | b :: c :: t, a => by
    rw [rust_dedup]
    by_cases h : b = c
    · rw [if_pos h, mem_rust_dedup (c :: t) a]
      subst h
      simp
    · rw [if_neg h]
      simp [mem_rust_dedup (c :: t) a]

theorem rust_dedup_chain : ∀ (l : List Char), l.Sorted (· ≤ ·) →
    List.Chain' (· < ·) (rust_dedup l) ∧ (rust_dedup l).head? = l.head?
  | [], _ => by simp [rust_dedup]
  | [b], _ => by simp [rust_dedup]
  | b :: c :: t, hs => by
    rw [List.sorted_cons] at hs
    obtain ⟨hb, hs'⟩ := hs
    obtain ⟨ih1, ih2⟩ := rust_dedup_chain (c :: t) hs'
    rw [rust_dedup]
    by_cases h : b = c
    · rw [if_pos h]
      refine ⟨ih1, ?_⟩
      rw [ih2]
      subst h
      rfl
    · rw [if_neg h]
      have hbc : b < c := lt_of_le_of_ne (hb c (by simp)) h
      refine ⟨?_, rfl⟩
      refine List.Chain'.cons' ih1 ?_
      intro y hy
      rw [ih2] at hy
      simp only [List.head?_cons, Option.mem_def, Option.some.injEq] at hy
      subst hy
      exact hbc

theorem sort_dedup_sorted_lt (l : List Char) : (sort_dedup l).Sorted (· < ·) := by
  have hs : (sort_chars l).Sorted (· ≤ ·) := List.sorted_insertionSort _ l
  have := (rust_dedup_chain (sort_chars l) hs).1
  exact List.chain'_iff_pairwise.mp this

theorem mem_sort_dedup (l : List Char) (a : Char) : a ∈ sort_dedup l ↔ a ∈ l := by
  unfold sort_dedup
  rw [mem_rust_dedup]
  exact (List.perm_insertionSort _ l).mem_iff

theorem sort_dedup_eq_of_mem_iff (l₁ l₂ : List Char)
    (h : ∀ a, a ∈ l₁ ↔ a ∈ l₂) : sort_dedup l₁ = sort_dedup l₂ := by
  haveI : IsAntisymm Char (· < ·) := ⟨fun a b h1 h2 => absurd h1 (asymm h2)⟩
  have s1 := sort_dedup_sorted_lt l₁
  have s2 := sort_dedup_sorted_lt l₂
  refine List.eq_of_perm_of_sorted ?_ s1 s2
  refine (List.perm_ext_iff_of_nodup s1.nodup s2.nodup).mpr ?_
  intro a
  rw [mem_sort_dedup, mem_sort_dedup]
  exact h a

theorem expand_symbols_mem : ∀ (l : List (List Char)) (cs : List Char),
    expand_symbols l = Except.ok cs →
    ∀ x, x ∈ cs ↔ ∃ e, e ∈ l ∧ ∃ c2, expand_symbol e = Except.ok c2 ∧ x ∈ c2
  | [], cs, h, x => by
    rw [expand_symbols] at h
    injection h with h'
    subst h'
    simp
  | s :: rest, cs, h, x => by
    rw [expand_symbols] at h
    rcases he : expand_symbol s with e | c1 <;> rw [he] at h
    · cases h
    · rcases hr : expand_symbols rest with e2 | c2' <;> rw [hr] at h
      · cases h
      · simp only [Except.map] at h
        injection h with h'
        subst h'
        have ih := expand_symbols_mem rest c2' hr x
        simp only [List.mem_append, List.mem_cons, ih]
        constructor
        · rintro (hx | ⟨e, he2, hc⟩)
          · exact ⟨s, Or.inl rfl, c1, he, hx⟩
          · exact ⟨e, Or.inr he2, hc⟩
        · rintro ⟨e, (rfl | he2), c2, hec, hx⟩
          · rw [he] at hec
            injection hec with hec'
            subst hec'
            exact Or.inl hx
          · exact Or.inr ⟨e, he2, c2, hec, hx⟩

theorem expand_symbol_error_of_long (e : List Char) (h : 2 ≤ byteLen e) :
    ∃ err, expand_symbol e = Except.error err := by
  unfold expand_symbol
  have h1 : e ≠ ['$'] := by rintro rfl; revert h; decide
  have h2 : e ≠ ['%'] := by rintro rfl; revert h; decide
  have h3 : e ≠ ['&'] := by rintro rfl; revert h; decide
  have h4 : ¬byteLen e = 1 := by omega
  rw [if_neg h1, if_neg h2, if_neg h3, if_neg h4]
  exact ⟨_, rfl⟩

theorem expand_symbols_error_of_mem : ∀ (l : List (List Char)) (e : List Char),
    e ∈ l → 2 ≤ byteLen e → ∃ err, expand_symbols l = Except.error err
  | [], e, he, _ => absurd he (List.not_mem_nil e)
  | s :: rest, e, he, hlen => by
    rw [expand_symbols]
    rcases hs : expand_symbol s with err | c1
    · exact ⟨err, rfl⟩
    · rcases List.mem_cons.mp he with rfl | he'
      · obtain ⟨err, herr⟩ := expand_symbol_error_of_long e hlen
        rw [herr] at hs
        cases hs
      · obtain ⟨err, herr⟩ := expand_symbols_error_of_mem rest e he' hlen
        rw [herr]
        exact ⟨err, rfl⟩

theorem from_lines_short (lines : List String) (h : lines.length < 4) :
    ∃ e, Automata.from_lines lines = Except.error e := by
  rw [Automata.from_lines, if_pos h]
  exact ⟨_, rfl⟩

theorem from_lines_bad_alphabet (lines : List String) (entry : List Char)
    (h4 : 4 ≤ lines.length) (hm : entry ∈ alphabet_entries (lines.getD 0 ""))
    (hlen : 2 ≤ byteLen entry) :
    ∃ e, Automata.from_lines lines = Except.error e := by
  obtain ⟨err, herr⟩ := expand_symbols_error_of_mem (alphabet_entries (lines.getD 0 ""))
    entry hm hlen
  have hpa : Automata.parse_alphabet (lines.getD 0 "") = Except.error err := by
    rw [Automata.parse_alphabet, herr]
    rfl
  rw [Automata.from_lines, if_neg (by omega), hpa]
  exact ⟨err, rfl⟩

theorem from_lines_after_alphabet (lines : List String) (alphabet : List Char)
    (h4 : 4 ≤ lines.length)
    (hpa : Automata.parse_alphabet (lines.getD 0 "") = Except.ok alphabet) :
    Automata.from_lines lines =
      (if comma_names (lines.getD 1 "") = [] then
        Except.error (DfaError.InvalidFormat "No states defined")
      else if initial_name (lines.getD 2 "") ∉ comma_names (lines.getD 1 "") then
        Except.error (DfaError.InvalidInitialState (initial_name (lines.getD 2 "")))
      else
        match (comma_names (lines.getD 3 "")).find?
            (fun s => !((comma_names (lines.getD 1 "")).contains s)) with
        | some bad => Except.error (DfaError.InvalidState bad)
        | none =>
          (Automata.parse_transitions (lines.drop 4) (comma_names (lines.getD 1 ""))
            alphabet).map
            (fun transitions =>
              ⟨alphabet, comma_names (lines.getD 1 ""), initial_name (lines.getD 2 ""),
                comma_names (lines.getD 3 ""), transitions⟩)) := by
  rw [Automata.from_lines, if_neg (by omega), hpa]
  try rfl

theorem from_lines_no_states (lines : List String) (h4 : 4 ≤ lines.length)
    (hs : comma_names (lines.getD 1 "") = []) :
    ∃ e, Automata.from_lines lines = Except.error e := by
  rcases hpa : Automata.parse_alphabet (lines.getD 0 "") with err | alphabet
  · rw [Automata.from_lines, if_neg (by omega), hpa]
    exact ⟨err, rfl⟩
  · rw [from_lines_after_alphabet lines alphabet h4 hpa, if_pos hs]
    exact ⟨_, rfl⟩

theorem from_lines_bad_initial (lines : List String) (h4 : 4 ≤ lines.length)
    (hi : initial_name (lines.getD 2 "") ∉ comma_names (lines.getD 1 "")) :
    ∃ e, Automata.from_lines lines = Except.error e := by
  rcases hpa : Automata.parse_alphabet (lines.getD 0 "") with err | alphabet
  · rw [Automata.from_lines, if_neg (by omega), hpa]
    exact ⟨err, rfl⟩
  · rw [from_lines_after_alphabet lines alphabet h4 hpa]
    by_cases hs : comma_names (lines.getD 1 "") = []
    · rw [if_pos hs]; exact ⟨_, rfl⟩
    · rw [if_neg hs, if_pos hi]; exact ⟨_, rfl⟩

theorem from_lines_bad_final (lines : List String) (f : String) (h4 : 4 ≤ lines.length)
    (hf : f ∈ comma_names (lines.getD 3 ""))
    (hns : f ∉ comma_names (lines.getD 1 "")) :
    ∃ e, Automata.from_lines lines = Except.error e := by
  rcases hpa : Automata.parse_alphabet (lines.getD 0 "") with err | alphabet
  · rw [Automata.from_lines, if_neg (by omega), hpa]
    exact ⟨err, rfl⟩
  · rw [from_lines_after_alphabet lines alphabet h4 hpa]
    by_cases hs : comma_names (lines.getD 1 "") = []
    · rw [if_pos hs]; exact ⟨_, rfl⟩
    · rw [if_neg hs]
      by_cases hi : initial_name (lines.getD 2 "") ∉ comma_names (lines.getD 1 "")
      · rw [if_pos hi]; exact ⟨_, rfl⟩
      · rw [if_neg hi]
        have hsome : ((comma_names (lines.getD 3 "")).find?
            (fun s => !((comma_names (lines.getD 1 "")).contains s))).isSome := by
          rw [List.find?_isSome]
          exact ⟨f, hf, by simpa using hns⟩
        rcases hfind : (comma_names (lines.getD 3 "")).find?
            (fun s => !((comma_names (lines.getD 1 "")).contains s)) with _ | bad
        · rw [hfind] at hsome; cases hsome
        · exact ⟨_, rfl⟩

theorem parse_transitions_go_blank (states : List String) (alphabet : List Char)
    (line : String) (rest : List String) (acc : List ((String × Char) × String))
    (h : trimChars line.data = []) :
    Automata.parse_transitions_go states alphabet (line :: rest) acc =
      Automata.parse_transitions_go states alphabet rest acc := by
  rw [Automata.parse_transitions_go, if_pos h]

theorem parse_transitions_go_bad_parts (states : List String) (alphabet : List Char)
    (line : String) (rest : List String) (acc : List ((String × Char) × String))
    (hne : trimChars line.data ≠ [])
    (hp : ((splitChars (fun c => c == '=' || c == ',') (trimChars line.data)).map
      (fun p => String.mk (trimChars p))).length ≠ 3) :
    Automata.parse_transitions_go states alphabet (line :: rest) acc =
      Except.error (DfaError.InvalidFormat
        ("Invalid line: '" ++ String.mk (trimChars line.data) ++ "'")) := by
  rw [Automata.parse_transitions_go]
  rw [if_neg hne]
  dsimp only
  rw [if_neg hp]

theorem parse_transitions_go_step (states : List String) (alphabet : List Char)
    (line : String) (rest : List String) (acc : List ((String × Char) × String))
    (hne : trimChars line.data ≠ [])
    (hp : ((splitChars (fun c => c == '=' || c == ',') (trimChars line.data)).map
      (fun p => String.mk (trimChars p))).length = 3) :
    (let parts := (splitChars (fun c => c == '=' || c == ',') (trimChars line.data)).map
      (fun p => String.mk (trimChars p))
     let origin_state := parts.getD 0 ""
     let symbol_str := parts.getD 1 ""
     let destination_state := parts.getD 2 ""
     (origin_state ∉ states →
        Automata.parse_transitions_go states alphabet (line :: rest) acc =
          Except.error (DfaError.InvalidState origin_state)) ∧
     (origin_state ∈ states → destination_state ∉ states →
        Automata.parse_transitions_go states alphabet (line :: rest) acc =
          Except.error (DfaError.InvalidState destination_state)) ∧
     (origin_state ∈ states → destination_state ∈ states → byteLen symbol_str.data ≠ 1 →
        Automata.parse_transitions_go states alphabet (line :: rest) acc =
          Except.error (DfaError.InvalidFormat
            ("Symbol '" ++ symbol_str ++ "' must be only one character"))) ∧
     (origin_state ∈ states → destination_state ∈ states → byteLen symbol_str.data = 1 →
        symbol_str.data.headD '\x00' ∉ alphabet →
        Automata.parse_transitions_go states alphabet (line :: rest) acc =
          Except.error (DfaError.InvalidSymbol (symbol_str.data.headD '\x00'))) ∧
     (origin_state ∈ states → destination_state ∈ states → byteLen symbol_str.data = 1 →
        symbol_str.data.headD '\x00' ∈ alphabet →
        (lookup_transition acc (origin_state, symbol_str.data.headD '\x00')).isSome →
        Automata.parse_transitions_go states alphabet (line :: rest) acc =
          Except.error (DfaError.DuplicateTransition origin_state
            (symbol_str.data.headD '\x00'))) ∧
     (origin_state ∈ states → destination_state ∈ states → byteLen symbol_str.data = 1 →
        symbol_str.data.headD '\x00' ∈ alphabet →
        ¬(lookup_transition acc (origin_state, symbol_str.data.headD '\x00')).isSome →
        Automata.parse_transitions_go states alphabet (line :: rest) acc =
          Automata.parse_transitions_go states alphabet rest
            (acc ++ [((origin_state, symbol_str.data.headD '\x00'), destination_state)]))) := by
  refine ⟨?_, ?_, ?_, ?_, ?_, ?_⟩
  · intro h1
    rw [Automata.parse_transitions_go, if_neg hne]
    dsimp only
    rw [if_pos hp]
    rw [if_pos h1]
  · intro h1 h2
    rw [Automata.parse_transitions_go, if_neg hne]
    dsimp only
    rw [if_pos hp]
    rw [if_neg (not_not_intro h1), if_pos h2]
  · intro h1 h2 h3
    rw [Automata.parse_transitions_go, if_neg hne]
    dsimp only
    rw [if_pos hp]
    rw [if_neg (not_not_intro h1), if_neg (not_not_intro h2), if_pos h3]
  · intro h1 h2 h3 h4
    rw [Automata.parse_transitions_go, if_neg hne]
    dsimp only
    rw [if_pos hp]
    rw [if_neg (not_not_intro h1), if_neg (not_not_intro h2), if_neg (not_not_intro h3)]
    rw [if_pos h4]
  · intro h1 h2 h3 h4 h5
    rw [Automata.parse_transitions_go, if_neg hne]
    dsimp only
    rw [if_pos hp]
    rw [if_neg (not_not_intro h1), if_neg (not_not_intro h2), if_neg (not_not_intro h3)]
    rw [if_neg (not_not_intro h4), if_pos h5]
  · intro h1 h2 h3 h4 h5
    rw [Automata.parse_transitions_go, if_neg hne]
    dsimp only
    rw [if_pos hp]
    rw [if_neg (not_not_intro h1), if_neg (not_not_intro h2), if_neg (not_not_intro h3)]
    rw [if_neg (not_not_intro h4), if_neg h5]

theorem from_lines_transitions_error (lines : List String) (alphabet : List Char)
    (e : DfaError) (h4 : 4 ≤ lines.length)
    (hpa : Automata.parse_alphabet (lines.getD 0 "") = Except.ok alphabet)
    (hs : comma_names (lines.getD 1 "") ≠ [])
    (hi : initial_name (lines.getD 2 "") ∈ comma_names (lines.getD 1 ""))
    (hf : ∀ f ∈ comma_names (lines.getD 3 ""), f ∈ comma_names (lines.getD 1 ""))
    (ht : Automata.parse_transitions (lines.drop 4) (comma_names (lines.getD 1 ""))
      alphabet = Except.error e) :
    Automata.from_lines lines = Except.error e := by
  rw [from_lines_after_alphabet lines alphabet h4 hpa, if_neg hs,
    if_neg (by simpa using hi)]
  have hnone : (comma_names (lines.getD 3 "")).find?
      (fun s => !((comma_names (lines.getD 1 "")).contains s)) = none := by
    rw [List.find?_eq_none]
    intro x hx
    simpa using hf x hx
  rw [hnone, ht]
  rfl

theorem try_match_identifier_none (lx : Lexer) (si sl sc : Nat) (lx' : Lexer)
    (h : lx.try_match_identifier si sl sc = (none, lx')) :
    lx'.source = lx.source ∧ lx'.current_index = lx.current_index ∧ lx'.line = lx.line ∧
    lx'.errors = lx.errors := by
  unfold Lexer.try_match_identifier at h
  obtain ⟨f1, f2, f3, f4, f5, f6, f7, f8, _⟩ := dfa_scan_fields lx.identifier_dfa
    (lx.source.length - lx.current_index) lx ⟨lx.identifier_dfa.initial_state⟩ none
  rcases hres : (Lexer.dfa_scan lx.identifier_dfa (lx.source.length - lx.current_index) lx
      ⟨lx.identifier_dfa.initial_state⟩ none).2 with _ | e
  · simp only [hres] at h
    injection h with hA hB
    subst hB
    exact ⟨f1, rfl, f3, f2⟩
  · simp only [hres] at h
    exact absurd (congrArg Prod.fst h) (by simp)

theorem try_match_identifier_some (lx : Lexer) (si sl sc : Nat) (tok : Token) (lx' : Lexer)
    (h : lx.try_match_identifier si sl sc = (some tok, lx')) :
    tok.lexeme = String.mk ((lx.source.drop si).take (tok.span.end_ - si)) ∧
    tok.span = Span.new si tok.span.end_ sl sc ∧
    tok.span.end_ ≤ lx'.current_index ∧ lx'.source = lx.source := by
  unfold Lexer.try_match_identifier at h
  obtain ⟨f1, f2, f3, f4, f5, f6, f7, f8, _⟩ := dfa_scan_fields lx.identifier_dfa
    (lx.source.length - lx.current_index) lx ⟨lx.identifier_dfa.initial_state⟩ none
  rcases hres : (Lexer.dfa_scan lx.identifier_dfa (lx.source.length - lx.current_index) lx
      ⟨lx.identifier_dfa.initial_state⟩ none).2 with _ | e
  · simp only [hres] at h
    exact absurd (congrArg Prod.fst h) (by simp)
  · simp only [hres] at h
    injection h with hA hB
    subst hB
    have hle := dfa_scan_accept_le lx.identifier_dfa (lx.source.length - lx.current_index)
      lx ⟨lx.identifier_dfa.initial_state⟩ none e (by intro e0 h0; cases h0) hres
    injection hA with hA'
    subst hA'
    refine ⟨?_, rfl, ?_, f1⟩
    · simp only [Token.new, Span.new, f1]
    · simpa only [Token.new, Span.new] using hle

theorem peek_spec (lx : Lexer) :
    (∀ t, lx.peeked_token = some t → lx.peek = (t, lx) ∧
      lx.next_token = (t, { lx with peeked_token := none })) ∧
    (lx.peeked_token = none → lx.next_token = lx.scan_token) ∧
    ((lx.peek).2.peeked_token = some (lx.peek).1) ∧
    ((lx.peek).2.peek = ((lx.peek).1, (lx.peek).2)) ∧
    ((lx.peek).2.next_token = ((lx.peek).1, { (lx.peek).2 with peeked_token := none })) := by
  have hc : (lx.peek).2.peeked_token = some (lx.peek).1 := by
    unfold Lexer.peek
    rcases ht : lx.peeked_token with _ | t
    · rcases hscan : lx.scan_token with ⟨t0, lx0⟩
      simp
    · rw [ht]
  refine ⟨?_, ?_, hc, ?_, ?_⟩
  · intro t ht
    constructor
    · unfold Lexer.peek
      rw [ht]
    · unfold Lexer.next_token
      rw [ht]
  · intro ht
    unfold Lexer.next_token
    rw [ht]
  · rcases hp : lx.peek with ⟨t1, lxp⟩
    rw [hp] at hc
    unfold Lexer.peek
    rw [hc]
  · rcases hp : lx.peek with ⟨t1, lxp⟩
    rw [hp] at hc
    unfold Lexer.next_token
    rw [hc]

/-- C1 counterexample: with the dead-end automaton on input `3.`, the integer
trial match produces the token `3` whose last recorded Accepted offset is 1,
yet the byte cursor ends at 2 — the `.` scanned beyond the accepted offset
stays consumed, contradicting the claim that the cursor ends at the last
recorded Accepted offset. -/
theorem C1_counterexample :
    (lex_dead_end.try_match_integer 0 1 1).1 =
      some (Token.new TokenType.Integer "3" (Span.new 0 1 1 1)) ∧
    (lex_dead_end.try_match_integer 0 1 1).2.current_index = 2 ∧
    (lex_dead_end.try_match_integer 0 1 1).2.current_index ≠ 1 := by
  refine ⟨rfl, rfl, by decide⟩

/-- C1 (amended): for every successful automaton-backed match attempt the
produced token's lexeme is exactly the source text from the attempt's start to
the last recorded Accepted offset (the token span's end), and the byte cursor
ends at or beyond that offset — wherever scanning stopped — rather than being
pulled back to it; for input `123` against the digit-run integer automaton the
lexeme is `123` and the cursor advances exactly 3 positions. -/
theorem C1_theorem :
    (∀ (lx : Lexer) (si sl sc : Nat) (tok : Token) (lx' : Lexer),
      lx.try_match_integer si sl sc = (some tok, lx') →
      tok.lexeme = String.mk ((lx.source.drop si).take (tok.span.end_ - si)) ∧
      tok.span = Span.new si tok.span.end_ sl sc ∧
      tok.span.end_ ≤ lx'.current_index) ∧
    (∀ (lx : Lexer) (si sl sc : Nat) (tok : Token) (lx' : Lexer),
      lx.try_match_float si sl sc = (some tok, lx') →
      tok.lexeme = String.mk ((lx.source.drop si).take (tok.span.end_ - si)) ∧
      tok.span = Span.new si tok.span.end_ sl sc ∧
      tok.span.end_ ≤ lx'.current_index) ∧
    (∀ (lx : Lexer) (si sl sc : Nat) (tok : Token) (lx' : Lexer),
      lx.try_match_identifier si sl sc = (some tok, lx') →
      tok.lexeme = String.mk ((lx.source.drop si).take (tok.span.end_ - si)) ∧
      tok.span = Span.new si tok.span.end_ sl sc ∧
      tok.span.end_ ≤ lx'.current_index) ∧
    (lex_digits.try_match_integer 0 1 1).1 =
      some (Token.new TokenType.Integer "123" (Span.new 0 3 1 1)) ∧
    (lex_digits.try_match_integer 0 1 1).2.current_index = 3 := by
  refine ⟨?_, ?_, ?_, rfl, rfl⟩
  · intro lx si sl sc tok lx' h
    obtain ⟨ht, hle, hsrc, -, -⟩ := try_match_integer_some lx si sl sc tok lx' h
    exact ⟨congrArg Token.lexeme ht, congrArg Token.span ht, hle⟩
  · intro lx si sl sc tok lx' h
    obtain ⟨ht, hle, hsrc, -, -⟩ := try_match_float_some lx si sl sc tok lx' h
    exact ⟨congrArg Token.lexeme ht, congrArg Token.span ht, hle⟩
  · intro lx si sl sc tok lx' h
    obtain ⟨h1, h2, h3, -⟩ := try_match_identifier_some lx si sl sc tok lx' h
    exact ⟨h1, h2, h3⟩

/-- C1 witness: the amended theorem applied to the dead-end tokenizer. -/
theorem C1_witness :
    (Token.new TokenType.Integer "3" (Span.new 0 1 1 1)).span.end_ ≤
      ({ lex_dead_end with current_index := 2, column := 3 } : Lexer).current_index :=
  (C1_theorem.1 lex_dead_end 0 1 1 (Token.new TokenType.Integer "3" (Span.new 0 1 1 1))
    { lex_dead_end with current_index := 2, column := 3 } rfl).2.2

/-- C2 counterexample: with float and integer automata that reject every
symbol, scanning `1` records the invalid-number diagnostic but the byte cursor
stays at 0 — it is not strictly greater than before, so no character is
consumed, contradicting the claimed forward-progress guarantee. -/
theorem C2_counterexample :
    (Lexer.scan_token lex_invalid_number).2.errors =
      [LexerError.new "Invalid number" (Span.new 0 0 1 1) ErrorType.InvalidNumber] ∧
    (Lexer.scan_token lex_invalid_number).2.current_index = 0 ∧
    ¬(lex_invalid_number.current_index < (Lexer.scan_token lex_invalid_number).2.current_index) := by
  refine ⟨by decide, by decide, by decide⟩

/-- C2 (amended): for every digit-initiated scan in which both the float and
then the integer automaton fail to record any Accepted offset, the tokenizer
records exactly one invalid-number diagnostic whose span is empty at the scan
position, and the byte cursor is left unchanged — no character is consumed, so
a caller that re-requests a token from the same position can loop forever. -/
theorem C2_theorem (lx : Lexer) (lxF lxI : Lexer)
    (hEnd : lx.is_at_end = false)
    (hDigit : (lx.peek_char).isDigit = true)
    (hF : lx.try_match_float lx.current_index lx.line lx.column = (none, lxF))
    (hI : lxF.try_match_integer lx.current_index lx.line lx.column = (none, lxI)) :
    lx.scan_token = lxI.report_error "Invalid number" lx.current_index lx.line lx.column
      ErrorType.InvalidNumber ∧
    (lx.scan_token).2.current_index = lx.current_index ∧
    (lx.scan_token).2.errors = lx.errors ++
      [LexerError.new "Invalid number" (Span.new lx.current_index lx.current_index lx.line
        lx.column) ErrorType.InvalidNumber] :=
  scan_token_invalid_number lx lxF lxI hEnd hDigit hF hI

/-- C2 witness: the amended theorem applied to the reject-everything
tokenizer over `1`. -/
theorem C2_witness :
    (Lexer.scan_token lex_invalid_number).2.current_index =
      lex_invalid_number.current_index :=
  (C2_theorem lex_invalid_number lex_invalid_number lex_invalid_number rfl rfl rfl rfl).2.1

/-- C3 counterexample: with the never-accepting automaton on input `9`, the
float trial match fails and restores the byte offset to 0, but the column is
left at 2 instead of being restored to its starting value 1 — the cursor is
not restored exactly. -/
theorem C3_counterexample :
    (lex_continue.try_match_float 0 1 1).1 = none ∧
    (lex_continue.try_match_float 0 1 1).2.current_index = 0 ∧
    (lex_continue.try_match_float 0 1 1).2.column = 2 ∧
    (lex_continue.try_match_float 0 1 1).2.column ≠ lex_continue.column := by
  refine ⟨rfl, by decide, by decide, by decide⟩

/-- C3 (amended): for every automaton-backed trial match that never records an
Accepted offset, the attempt returns no token and restores the byte offset
exactly; the line and the accumulated diagnostics are unchanged (the line is
never touched by a trial match), but the column is not restored — it remains
advanced past the scanned characters, as the counterexample shows. -/
theorem C3_theorem :
    (∀ (lx : Lexer) (si sl sc : Nat) (lx' : Lexer),
      lx.try_match_float si sl sc = (none, lx') →
      lx'.current_index = lx.current_index ∧ lx'.line = lx.line ∧
      lx'.errors = lx.errors ∧ lx'.source = lx.source) ∧
    (∀ (lx : Lexer) (si sl sc : Nat) (lx' : Lexer),
      lx.try_match_integer si sl sc = (none, lx') →
      lx'.current_index = lx.current_index ∧ lx'.line = lx.line ∧
      lx'.errors = lx.errors ∧ lx'.source = lx.source) ∧
    (∀ (lx : Lexer) (si sl sc : Nat) (lx' : Lexer),
      lx.try_match_identifier si sl sc = (none, lx') →
      lx'.current_index = lx.current_index ∧ lx'.line = lx.line ∧
      lx'.errors = lx.errors ∧ lx'.source = lx.source) := by
  refine ⟨?_, ?_, ?_⟩
  · intro lx si sl sc lx' h
    obtain ⟨f1, f2, f3, f4, -⟩ := try_match_float_none lx si sl sc lx' h
    exact ⟨f2, f3, f4, f1⟩
  · intro lx si sl sc lx' h
    obtain ⟨f1, f2, f3, f4, -⟩ := try_match_integer_none lx si sl sc lx' h
    exact ⟨f2, f3, f4, f1⟩
  · intro lx si sl sc lx' h
    obtain ⟨f1, f2, f3, f4⟩ := try_match_identifier_none lx si sl sc lx' h
    exact ⟨f2, f3, f4, f1⟩

/-- C3 witness: the amended theorem applied to the never-accepting tokenizer. -/
theorem C3_witness :
    ({ lex_continue with column := 2 } : Lexer).current_index =
      lex_continue.current_index ∧
    ({ lex_continue with column := 2 } : Lexer).line = lex_continue.line :=
  ⟨(C3_theorem.1 lex_continue 0 1 1 { lex_continue with column := 2 } rfl).1,
   (C3_theorem.1 lex_continue 0 1 1 { lex_continue with column := 2 } rfl).2.1⟩

/-- C4: one runner step. If the automaton declares a transition for the
current state and symbol, the runner moves to its destination and reports
Accepted exactly when the destination is final, Continue otherwise; if no
transition is declared, the step reports Reject and the runner state is
unchanged. -/
theorem C4_theorem (a : Automata) (r : DfaRunner) (c : Char) :
    (∀ next, a.transition r.current_state c = some next →
      DfaRunner.transition a r c =
        ((if a.is_final_state next then TransitionResult.Accepted
          else TransitionResult.Continue), ⟨next⟩)) ∧
    (a.transition r.current_state c = none →
      DfaRunner.transition a r c = (TransitionResult.Reject, r)) := by
  constructor
  · intro next h
    unfold DfaRunner.transition
    rw [h]
  · intro h
    unfold DfaRunner.transition
    rw [h]

/-- C4 witness: both step cases on the concrete dead-end automaton. -/
theorem C4_witness :
    DfaRunner.transition dead_end_dfa ⟨"q0"⟩ '3' =
      (TransitionResult.Accepted, ⟨"q1"⟩) ∧
    DfaRunner.transition dead_end_dfa ⟨"q0"⟩ 'x' =
      (TransitionResult.Reject, ⟨"q0"⟩) :=
  ⟨((C4_theorem dead_end_dfa ⟨"q0"⟩ '3').1 "q1" rfl).trans rfl,
   (C4_theorem dead_end_dfa ⟨"q0"⟩ 'x').2 rfl⟩

/-- C10: every token produced through `report_error` has kind `Unknown`, its
lexeme is the diagnostic's message text (not the offending source text), and
its span is exactly the span of the diagnostic appended to the error list. -/
theorem C10_theorem (lx : Lexer) (message : String) (si sl sc : Nat) (et : ErrorType) :
    ((lx.report_error message si sl sc et).1).type_ = TokenType.Unknown ∧
    ((lx.report_error message si sl sc et).1).lexeme = message ∧
    ((lx.report_error message si sl sc et).2).errors = lx.errors ++
      [LexerError.new message ((lx.report_error message si sl sc et).1).span et] ∧
    ((lx.report_error message si sl sc et).1).span = Span.new si lx.current_index sl sc :=
  ⟨rfl, rfl, rfl, rfl⟩

/-- C5: lookahead contract. A cached token is returned by `peek` without
rescanning and by `next_token` with the cache cleared; with no cache,
`next_token` scans fresh; after any `peek` the cache holds exactly the peeked
token, a second `peek` returns it without recomputation, and `next_token`
returns that very token clearing the cache; at end of input `scan_token`
yields the end-of-file token and leaves the state unchanged, so every
subsequent `peek`/`next_token` yields the end-of-file token again. -/
theorem C5_theorem (lx : Lexer) :
    (∀ t, lx.peeked_token = some t → lx.peek = (t, lx) ∧
      lx.next_token = (t, { lx with peeked_token := none })) ∧
    (lx.peeked_token = none → lx.next_token = lx.scan_token) ∧
    ((lx.peek).2.peeked_token = some (lx.peek).1) ∧
    ((lx.peek).2.peek = ((lx.peek).1, (lx.peek).2)) ∧
    ((lx.peek).2.next_token = ((lx.peek).1, { (lx.peek).2 with peeked_token := none })) ∧
    (lx.is_at_end = true →
      lx.scan_token = (Token.eof lx.current_index lx.line lx.column, lx)) ∧
    (lx.is_at_end = true → lx.peeked_token = none →
      lx.next_token = (Token.eof lx.current_index lx.line lx.column, lx)) := by
  obtain ⟨p1, p2, p3, p4, p5⟩ := peek_spec lx
  refine ⟨p1, p2, p3, p4, p5, fun h => scan_token_at_end lx h, fun h hn => ?_⟩
  rw [p2 hn, scan_token_at_end lx h]

/-- C5 witness: the lookahead contract applied to the empty-input tokenizer,
with and without a cached token. -/
theorem C5_witness :
    ({ lex_empty with peeked_token := some (Token.eof 0 1 1) } : Lexer).peek =
      (Token.eof 0 1 1, { lex_empty with peeked_token := some (Token.eof 0 1 1) }) ∧
    lex_empty.next_token = lex_empty.scan_token ∧
    lex_empty.next_token = (Token.eof 0 1 1, lex_empty) :=
  ⟨((C5_theorem { lex_empty with peeked_token := some (Token.eof 0 1 1) }).1
      (Token.eof 0 1 1) rfl).1,
   (C5_theorem lex_empty).2.1 rfl,
   (C5_theorem lex_empty).2.2.2.2.2.2 rfl rfl⟩

/-- C6: string-escape handling. The six recognized escape characters map to
their literal characters and scanning continues with no diagnostic; any other
escaped character is appended literally, exactly one invalid-escape diagnostic
is recorded at the backslash's position, and scanning continues; consequently
the well-closed literal `"a\qb"` still yields the string token `aqb` together
with exactly one invalid-escape diagnostic at column 3. -/
theorem C6_theorem :
    (∀ (si sl sc g : Nat) (lx : Lexer) (value : List Char) (c m : Char),
      lx.peek_char = '\\' → lx.current_index + 1 < lx.source.length →
      lx.source.getD (lx.current_index + 1) '\x00' = c → escape_map c = some m →
      Lexer.scan_string_go si sl sc (g + 1) lx value =
        Lexer.scan_string_go si sl sc g (((lx.advance).2.advance).2) (value ++ [m]) ∧
      (((lx.advance).2.advance).2).errors = lx.errors) ∧
    (∀ (si sl sc g : Nat) (lx : Lexer) (value : List Char) (c : Char),
      lx.peek_char = '\\' → lx.current_index + 1 < lx.source.length →
      lx.source.getD (lx.current_index + 1) '\x00' = c → escape_map c = none →
      Lexer.scan_string_go si sl sc (g + 1) lx value =
        Lexer.scan_string_go si sl sc g
          ((({ (lx.advance).2 with errors := lx.errors ++
            [LexerError.new ("Invalid escape sequence '\\" ++ String.mk [c] ++ "'")
              (Span.new lx.current_index (lx.current_index + 2) lx.line lx.column)
              ErrorType.InvalidEscape] }).advance).2) (value ++ [c])) ∧
    escape_map 'n' = some '\n' ∧ escape_map 't' = some '\t' ∧
    escape_map 'r' = some '\r' ∧ escape_map '\\' = some '\\' ∧
    escape_map '"' = some '"' ∧ escape_map '0' = some '\x00' ∧
    escape_map 'q' = none ∧
    (lex_escape.scan_token).1 =
      Token.new TokenType.StringLiteral "aqb" (Span.new 0 6 1 1) ∧
    (lex_escape.scan_token).2.errors =
      [LexerError.new "Invalid escape sequence '\\q'" (Span.new 2 4 1 3)
        ErrorType.InvalidEscape] := by
  refine ⟨?_, ?_, rfl, rfl, rfl, rfl, rfl, rfl, rfl, rfl, rfl⟩
  · intro si sl sc g lx value c m hp hin hc hm
    exact (scan_string_go_escape_step si sl sc g lx value c hp hin hc).1 m hm
  · intro si sl sc g lx value c hp hin hc hm
    exact (scan_string_go_escape_step si sl sc g lx value c hp hin hc).2 hm

/-- C6 witness: both escape cases of the theorem applied to concrete
two-character string bodies. -/
theorem C6_witness :
    (Lexer.scan_string_go 0 1 1 1 (Lexer.new "\\n" empty_dfa empty_dfa empty_dfa) [] =
      Lexer.scan_string_go 0 1 1 0
        ((((Lexer.new "\\n" empty_dfa empty_dfa empty_dfa).advance).2.advance).2) ['\n']) ∧
    (Lexer.scan_string_go 0 1 1 1 (Lexer.new "\\q" empty_dfa empty_dfa empty_dfa) [] =
      Lexer.scan_string_go 0 1 1 0
        ((({ ((Lexer.new "\\q" empty_dfa empty_dfa empty_dfa).advance).2 with errors :=
          (Lexer.new "\\q" empty_dfa empty_dfa empty_dfa).errors ++
          [LexerError.new ("Invalid escape sequence '\\" ++ String.mk ['q'] ++ "'")
            (Span.new 0 2 1 1) ErrorType.InvalidEscape] }).advance).2) ['q']) :=
  ⟨(C6_theorem.1 0 1 1 0 (Lexer.new "\\n" empty_dfa empty_dfa empty_dfa) [] 'n' '\n'
      rfl (by decide) rfl rfl).1,
   C6_theorem.2.1 0 1 1 0 (Lexer.new "\\q" empty_dfa empty_dfa empty_dfa) [] 'q'
      rfl (by decide) rfl rfl⟩

/-- C7: error recovery consumes the offending character. For a lone `&`, a
lone `|`, and any unknown character, `scan_token` advances the byte cursor
past exactly that one character and appends exactly one unexpected-character
diagnostic, so the next scan resumes at the following character. -/
theorem C7_theorem :
    (∀ lx : Lexer, lx.peek_char = '&' →
      (((lx.advance).2.is_at_end = true) ∨ (lx.advance).2.peek_char ≠ '&') →
      (lx.scan_token).2.current_index = lx.current_index + 1 ∧
      (lx.scan_token).2.errors = lx.errors ++
        [LexerError.new "Expected '&&'" (Span.new lx.current_index (lx.current_index + 1)
          lx.line lx.column) ErrorType.UnexpectedCharacter]) ∧
    (∀ lx : Lexer, lx.peek_char = '|' →
      (((lx.advance).2.is_at_end = true) ∨ (lx.advance).2.peek_char ≠ '|') →
      (lx.scan_token).2.current_index = lx.current_index + 1 ∧
      (lx.scan_token).2.errors = lx.errors ++
        [LexerError.new "Expected '||'" (Span.new lx.current_index (lx.current_index + 1)
          lx.line lx.column) ErrorType.UnexpectedCharacter]) ∧
    (∀ (lx : Lexer) (c : Char), lx.peek_char = c → lx.is_at_end = false →
      c ∉ ([' ', '\t', '\r', '\n', '(', ')', '\x7b', '\x7d', '[', ']', '&', ';',
        ',', '.', '|', '+', '-', '*', '/', '=', '!', '<', '>', '"'] : List Char) →
      c.isDigit = false → c.isAlpha = false → c ≠ '_' →
      (lx.scan_token).2.current_index = lx.current_index + 1 ∧
      (lx.scan_token).2.errors = lx.errors ++
        [LexerError.new ("Unknown character: '" ++ String.mk [c] ++ "'")
          (Span.new lx.current_index (lx.current_index + 1) lx.line lx.column)
          ErrorType.UnexpectedCharacter]) := by
  refine ⟨?_, ?_, ?_⟩
  · intro lx hp h2
    obtain ⟨-, ha, hb⟩ := scan_token_lone_amp lx hp h2
    exact ⟨ha, hb⟩
  · intro lx hp h2
    obtain ⟨-, ha, hb⟩ := scan_token_lone_pipe lx hp h2
    exact ⟨ha, hb⟩
  · intro lx c hp hEnd hmem hd ha hu
    obtain ⟨-, h1, h2⟩ := scan_token_unknown_char lx c hp hEnd hmem hd ha hu
    exact ⟨h1, h2⟩

/-- C7 witness: the three cases applied to the lone-`&`, lone-`|` and `@`
tokenizers. -/
theorem C7_witness :
    (Lexer.scan_token lex_lone_amp).2.current_index = 1 ∧
    (Lexer.scan_token lex_lone_pipe).2.current_index = 1 ∧
    (Lexer.scan_token lex_at_sign).2.current_index = 1 :=
  ⟨(C7_theorem.1 lex_lone_amp rfl (Or.inr (by decide))).1,
   (C7_theorem.2.1 lex_lone_pipe rfl (Or.inr (by decide))).1,
   (C7_theorem.2.2 lex_at_sign '@' rfl rfl (by decide) rfl rfl (by decide)).1⟩

/-- C8: alphabet expansion. `$` yields the digits, `%` the letters (uppercase
before lowercase in code-point order), `&` digits plus letters, a single-byte
entry yields itself, and the parsed alphabet is strictly sorted and contains a
character exactly when some entry's expansion does — it is the sorted,
deduplicated union of the expansions; two entry lists with the same members
(any permutation or duplication) successfully expanding produce the same
alphabet, and an entry of two or more bytes other than the shorthands makes
expansion fail with a format error. -/
theorem C8_theorem :
    Automata.parse_alphabet "$" = Except.ok digit_chars ∧
    Automata.parse_alphabet "%" = Except.ok (upper_chars ++ lower_chars) ∧
    Automata.parse_alphabet "&" =
      Except.ok (digit_chars ++ upper_chars ++ lower_chars) ∧
    (∀ e : List Char, e ≠ ['$'] → e ≠ ['%'] → e ≠ ['&'] → byteLen e = 1 →
      expand_symbol e = Except.ok [e.headD '\x00']) ∧
    (∀ (line : String) (a : List Char), Automata.parse_alphabet line = Except.ok a →
      a.Sorted (· < ·) ∧
      (∀ x, x ∈ a ↔ ∃ e, e ∈ alphabet_entries line ∧ ∃ cs,
        expand_symbol e = Except.ok cs ∧ x ∈ cs)) ∧
    (∀ (l₁ l₂ : List (List Char)) (c₁ c₂ : List Char),
      expand_symbols l₁ = Except.ok c₁ → expand_symbols l₂ = Except.ok c₂ →
      (∀ e, e ∈ l₁ ↔ e ∈ l₂) → sort_dedup c₁ = sort_dedup c₂) ∧
    (∀ (l : List (List Char)) (e : List Char), e ∈ l → 2 ≤ byteLen e →
      ∃ err, expand_symbols l = Except.error err) := by
  refine ⟨rfl, rfl, rfl, ?_, ?_, ?_, expand_symbols_error_of_mem⟩
  · intro e h1 h2 h3 h4
    unfold expand_symbol
    rw [if_neg h1, if_neg h2, if_neg h3, if_pos h4]
  · intro line a h
    unfold Automata.parse_alphabet at h
    rcases hex : expand_symbols (alphabet_entries line) with err | cs <;> rw [hex] at h
    · cases h
    · simp only [Except.map] at h
      injection h with h'
      subst h'
      refine ⟨sort_dedup_sorted_lt cs, ?_⟩
      intro x
      rw [mem_sort_dedup]
      exact expand_symbols_mem (alphabet_entries line) cs hex x
  · intro l₁ l₂ c₁ c₂ h1 h2 hiff
    refine sort_dedup_eq_of_mem_iff c₁ c₂ ?_
    intro x
    rw [expand_symbols_mem l₁ c₁ h1 x, expand_symbols_mem l₂ c₂ h2 x]
    constructor
    · rintro ⟨e, he, hrest⟩
      exact ⟨e, (hiff e).mp he, hrest⟩
    · rintro ⟨e, he, hrest⟩
      exact ⟨e, (hiff e).mpr he, hrest⟩

/-- C8 witness: the universal parts applied to concrete entries and entry
lists. -/
theorem C8_witness :
    expand_symbol ['x'] = Except.ok ['x'] ∧
    (sort_dedup ['a', 'b'] = sort_dedup ['b', 'a', 'a']) ∧
    (∃ err, expand_symbols [['a', 'b']] = Except.error err) ∧
    (digit_chars.Sorted (· < ·)) :=
  ⟨C8_theorem.2.2.2.1 ['x'] (by decide) (by decide) (by decide) (by decide),
   C8_theorem.2.2.2.2.2.1 [['a'], ['b']] [['b'], ['a'], ['a']] ['a', 'b'] ['b', 'a', 'a']
     rfl rfl (by intro e; constructor <;> (intro h; simp only [List.mem_cons,
       List.not_mem_nil, or_false] at h ⊢; tauto)),
   C8_theorem.2.2.2.2.2.2 [['a', 'b']] ['a', 'b'] (by decide) (by decide),
   (C8_theorem.2.2.2.2.1 "$" digit_chars rfl).1⟩

/-- C9: automaton construction is atomic and validating. `from_lines` returns
an error whenever fewer than 4 lines are given, an alphabet entry of two or
more bytes is not a shorthand, the state list is empty, the initial state or a
final state is undeclared; the transition parser skips blank lines, rejects a
line not splitting into exactly three fields, an undeclared origin or
destination, a symbol that is not exactly one byte or not in the alphabet, and
a re-declared (origin, symbol) pair with specifically a duplicate-transition
error; a transition-parsing error aborts the whole construction with that
error and no automaton. -/
theorem C9_theorem :
    (∀ lines : List String, lines.length < 4 →
      ∃ e, Automata.from_lines lines = Except.error e) ∧
    (∀ (lines : List String) (entry : List Char), 4 ≤ lines.length →
      entry ∈ alphabet_entries (lines.getD 0 "") → 2 ≤ byteLen entry →
      ∃ e, Automata.from_lines lines = Except.error e) ∧
    (∀ lines : List String, 4 ≤ lines.length → comma_names (lines.getD 1 "") = [] →
      ∃ e, Automata.from_lines lines = Except.error e) ∧
    (∀ lines : List String, 4 ≤ lines.length →
      initial_name (lines.getD 2 "") ∉ comma_names (lines.getD 1 "") →
      ∃ e, Automata.from_lines lines = Except.error e) ∧
    (∀ (lines : List String) (f : String), 4 ≤ lines.length →
      f ∈ comma_names (lines.getD 3 "") → f ∉ comma_names (lines.getD 1 "") →
      ∃ e, Automata.from_lines lines = Except.error e) ∧
    (∀ (states : List String) (alphabet : List Char) (line : String)
      (rest : List String) (acc : List ((String × Char) × String)),
      trimChars line.data = [] →
      Automata.parse_transitions_go states alphabet (line :: rest) acc =
        Automata.parse_transitions_go states alphabet rest acc) ∧
    (∀ (states : List String) (alphabet : List Char) (line : String)
      (rest : List String) (acc : List ((String × Char) × String)),
      trimChars line.data ≠ [] →
      ((splitChars (fun c => c == '=' || c == ',') (trimChars line.data)).map
        (fun p => String.mk (trimChars p))).length ≠ 3 →
      Automata.parse_transitions_go states alphabet (line :: rest) acc =
        Except.error (DfaError.InvalidFormat
          ("Invalid line: '" ++ String.mk (trimChars line.data) ++ "'"))) ∧
    (∀ (states : List String) (alphabet : List Char) (line : String)
      (rest : List String) (acc : List ((String × Char) × String)),
      trimChars line.data ≠ [] →
      ((splitChars (fun c => c == '=' || c == ',') (trimChars line.data)).map
        (fun p => String.mk (trimChars p))).length = 3 →
      (let parts := (splitChars (fun c => c == '=' || c == ',') (trimChars line.data)).map
        (fun p => String.mk (trimChars p))
       let origin_state := parts.getD 0 ""
       let symbol_str := parts.getD 1 ""
       let destination_state := parts.getD 2 ""
       (origin_state ∉ states →
          Automata.parse_transitions_go states alphabet (line :: rest) acc =
            Except.error (DfaError.InvalidState origin_state)) ∧
       (origin_state ∈ states → destination_state ∉ states →
          Automata.parse_transitions_go states alphabet (line :: rest) acc =
            Except.error (DfaError.InvalidState destination_state)) ∧
       (origin_state ∈ states → destination_state ∈ states →
          byteLen symbol_str.data ≠ 1 →
          Automata.parse_transitions_go states alphabet (line :: rest) acc =
            Except.error (DfaError.InvalidFormat
              ("Symbol '" ++ symbol_str ++ "' must be only one character"))) ∧
       (origin_state ∈ states → destination_state ∈ states →
          byteLen symbol_str.data = 1 → symbol_str.data.headD '\x00' ∉ alphabet →
          Automata.parse_transitions_go states alphabet (line :: rest) acc =
            Except.error (DfaError.InvalidSymbol (symbol_str.data.headD '\x00'))) ∧
       (origin_state ∈ states → destination_state ∈ states →
          byteLen symbol_str.data = 1 → symbol_str.data.headD '\x00' ∈ alphabet →
          (lookup_transition acc (origin_state, symbol_str.data.headD '\x00')).isSome →
          Automata.parse_transitions_go states alphabet (line :: rest) acc =
            Except.error (DfaError.DuplicateTransition origin_state
              (symbol_str.data.headD '\x00'))))) ∧
    (∀ (lines : List String) (alphabet : List Char) (e : DfaError), 4 ≤ lines.length →
      Automata.parse_alphabet (lines.getD 0 "") = Except.ok alphabet →
      comma_names (lines.getD 1 "") ≠ [] →
      initial_name (lines.getD 2 "") ∈ comma_names (lines.getD 1 "") →
      (∀ f ∈ comma_names (lines.getD 3 ""), f ∈ comma_names (lines.getD 1 "")) →
      Automata.parse_transitions (lines.drop 4) (comma_names (lines.getD 1 ""))
        alphabet = Except.error e →
      Automata.from_lines lines = Except.error e) := by
  refine ⟨from_lines_short, from_lines_bad_alphabet, from_lines_no_states,
    from_lines_bad_initial, from_lines_bad_final, parse_transitions_go_blank,
    parse_transitions_go_bad_parts, ?_, from_lines_transitions_error⟩
  intro states alphabet line rest acc hne hp
  obtain ⟨s1, s2, s3, s4, s5, -⟩ := parse_transitions_go_step states alphabet line rest
    acc hne hp
  exact ⟨s1, s2, s3, s4, s5⟩

/-- C9 witness: every validation case instantiated on concrete specification
lines. -/
theorem C9_witness :
    (∃ e, Automata.from_lines ["a"] = Except.error e) ∧
    (∃ e, Automata.from_lines ["ab", "q0", "q0", "q0"] = Except.error e) ∧
    (∃ e, Automata.from_lines ["a", "", "q0", "q0"] = Except.error e) ∧
    (∃ e, Automata.from_lines ["a", "q0", "q1", "q0"] = Except.error e) ∧
    (∃ e, Automata.from_lines ["a", "q0", "q0", "q2"] = Except.error e) ∧
    (Automata.parse_transitions_go ["q0"] ['a'] [" "] [] =
      Automata.parse_transitions_go ["q0"] ['a'] [] []) ∧
    (Automata.parse_transitions_go ["q0"] ['a'] ["q0=a"] [] =
      Except.error (DfaError.InvalidFormat "Invalid line: 'q0=a'")) ∧
    (Automata.parse_transitions_go ["q0"] ['a'] ["q1,a=q0"] [] =
      Except.error (DfaError.InvalidState "q1")) ∧
    (Automata.parse_transitions_go ["q0"] ['a'] ["q0,a=q0"] [(("q0", 'a'), "q0")] =
      Except.error (DfaError.DuplicateTransition "q0" 'a')) ∧
    (Automata.from_lines ["a", "q0", "q0", "q0", "q0,b=q0"] =
      Except.error (DfaError.InvalidSymbol 'b')) := by
  refine ⟨C9_theorem.1 ["a"] (by decide),
    C9_theorem.2.1 ["ab", "q0", "q0", "q0"] ['a', 'b'] (by decide) (by decide) (by decide),
    C9_theorem.2.2.1 ["a", "", "q0", "q0"] (by decide) (by decide),
    C9_theorem.2.2.2.1 ["a", "q0", "q1", "q0"] (by decide) (by decide),
    C9_theorem.2.2.2.2.1 ["a", "q0", "q0", "q2"] "q2" (by decide) (by decide) (by decide),
    C9_theorem.2.2.2.2.2.1 ["q0"] ['a'] " " [] [] (by decide),
    C9_theorem.2.2.2.2.2.2.1 ["q0"] ['a'] "q0=a" [] [] (by decide) (by decide),
    (C9_theorem.2.2.2.2.2.2.2.1 ["q0"] ['a'] "q1,a=q0" [] [] (by decide) (by decide)).1
      (by decide),
    (C9_theorem.2.2.2.2.2.2.2.1 ["q0"] ['a'] "q0,a=q0" [] [(("q0", 'a'), "q0")]
      (by decide) (by decide)).2.2.2.2 (by decide) (by decide) (by decide) (by decide)
      (by decide),
    C9_theorem.2.2.2.2.2.2.2.2 ["a", "q0", "q0", "q0", "q0,b=q0"] ['a']
      (DfaError.InvalidSymbol 'b') (by decide) rfl (by decide) (by decide)
      (by decide) rfl⟩
